import Mathlib

/-! Chat widget of `frontend/src`: a shallow embedding.

The development embeds `frontend/src/components/ChatWidget.js` and
`frontend/src/services/chatApi.js`.

* The React state of the component (`messages`, `inputMessage`, `isLoading`,
  `isTyping`, `isOpen`), the `chatSocketRef` ref, and the observable effects
  (socket emissions, REST requests, console output) are the fields of `World`.
* JavaScript code is a function `World → Except JSError α × World` (`JS α`): the
  completion is either normal (`.ok`) or a thrown exception (`.error`), and the
  state reached so far is kept in both cases, as in JavaScript.
* An `async` function is cut at its `await`: the part that runs synchronously when
  the function is called keeps the source name (`handleSendMessage`), and the part
  that runs when the awaited promise settles is the `_resume` definition, which takes
  the settlement of the promise (`.ok value` for resolved, `.error e` for rejected).
* `new Date().toISOString()` is the parameter `now`; `window.confirm(..)` is the
  parameter `confirmed`.
* Wire payloads are typed as the component reads them: `success` a boolean,
  `response` an optional object with `content` and an optional `type`, `error` an
  optional string, `history` a list of records.
-/

namespace ChatWidget

/-! ## Data model -/

/-- The value thrown by JavaScript code, or the reason a promise rejects with. -/
abbrev JSError := String

/-- The message object literal built in `ChatWidget.js`:
`{ role, content, timestamp, type }`. -/
structure Message where
  role : String
  content : String
  timestamp : String
  type : String
  deriving DecidableEq, Repr

/-- The `response` object of a chat reply: `data.response.content` and
`data.response.type` (which may be missing). -/
structure ResponsePayload where
  content : String
  type : Option String
  deriving DecidableEq, Repr

/-- The body of a chat reply, as read by the `chat_response` callback
(`data.success`, `data.response`, `data.error`) and by the REST fallback
(`response.data.success`, `response.data.response`). -/
structure ChatResponse where
  success : Bool
  response : Option ResponsePayload
  error : Option String
  deriving DecidableEq, Repr

/-- One element of `response.data.history`. -/
structure HistoryRecord where
  role : String
  content : String
  timestamp : String
  deriving DecidableEq, Repr

/-- The body of the reply to `GET /chat/history`. -/
structure HistoryResponse where
  success : Bool
  history : List HistoryRecord
  deriving DecidableEq, Repr

/-- An axios response object: only `.data` is read. -/
structure AxiosResponse (α : Type) where
  data : α
  deriving DecidableEq, Repr

/-- A value inside a request payload. -/
inductive Value where
  | str (s : String)
  | num (n : Int)
  deriving DecidableEq, Repr

/-- One `socket.emit(event, payload)`; the payload object is its list of
key/value pairs in source order. -/
structure Emission where
  event : String
  payload : List (String × Value)
  deriving DecidableEq, Repr

/-- One axios call; `path` is the URL after `API_BASE_URL`, `payload` the request
body of a POST or the `params` of a GET. -/
structure RestRequest where
  method : String
  path : String
  payload : List (String × Value)
  deriving DecidableEq, Repr

/-- The functions that the code registers with `socket.on(event, ..)`: the three arrow
functions of `ChatSocket.connect` (for `connect`, `disconnect` and `error`) and the
callback that the widget passes to `ChatSocket.onMessage` (for `chat_response`). -/
inductive Listener where
  | onConnect
  | onDisconnect
  | onError
  | onChatResponse
  deriving DecidableEq, Repr

/-- The socket.io client object: its `connected` property and the listeners registered
on it, in the order of registration. -/
structure Socket where
  connected : Bool
  listeners : List Listener
  deriving DecidableEq, Repr

/-- The fields of `class ChatSocket`. -/
structure ChatSocket where
  socket : Option Socket
  sessionId : String
  deriving DecidableEq, Repr

/-- The component state of `ChatWidget` (its `useState` cells and `chatSocketRef`)
together with the effects its code performs, each in the order performed. -/
structure World where
  isOpen : Bool
  messages : List Message
  inputMessage : String
  isLoading : Bool
  isTyping : Bool
  chatSocketRef : Option ChatSocket
  emitted : List Emission
  requests : List RestRequest
  console : List String
  /-- The calls of `socket.disconnect()`: each entry is the number of emissions
  performed before the call. -/
  socketDisconnects : List Nat
  deriving DecidableEq, Repr

/-! ## JavaScript code as state passing with exceptions -/

/-- A run of JavaScript code from a state: its completion and the state it leaves. -/
def JS (α : Type) : Type := World → Except JSError α × World

/-- Normal completion with a value. -/
def JS.pure {α : Type} (a : α) : JS α := fun w => (.ok a, w)

/-- Sequencing: a thrown exception skips the rest and keeps the state reached. -/
def JS.bind {α β : Type} (x : JS α) (f : α → JS β) : JS β := fun w =>
  match x w with
  | (.ok a, w1) => f a w1
  | (.error e, w1) => (.error e, w1)

/-- The statement `throw e`. -/
def JS.throw {α : Type} (e : JSError) : JS α := fun w => (.error e, w)

/-- The statement `try { x } catch (e) { h e }`. -/
def JS.tryCatch {α : Type} (x : JS α) (h : JSError → JS α) : JS α := fun w =>
  match x w with
  | (.ok a, w1) => (.ok a, w1)
  | (.error e, w1) => h e w1

/-- The statement `try { x } finally { f }`: `f` runs on both completions; when it
completes normally the completion of `x` stands, when it throws its exception wins. -/
def JS.tryFinally {α β : Type} (x : JS α) (f : Option α → JS β) : JS (α × β) := fun w =>
  match x w with
  | (.ok a, w1) =>
    match f (some a) w1 with
    | (.ok b, w2) => (.ok (a, b), w2)
    | (.error e, w2) => (.error e, w2)
  | (.error e, w1) =>
    match f none w1 with
    | (.ok _, w2) => (.error e, w2)
    | (.error e2, w2) => (.error e2, w2)

instance : Monad JS where
  pure := JS.pure
  bind := JS.bind

instance : MonadExcept JSError JS where
  throw := JS.throw
  tryCatch := JS.tryCatch

instance : MonadFinally JS where
  tryFinally' := JS.tryFinally

/-- The state left by a run. -/
def JS.exec {α : Type} (x : JS α) (w : World) : World := (x w).2

/-- The completion of a run. -/
def JS.completion {α : Type} (x : JS α) (w : World) : Except JSError α := (x w).1

/-- Resuming at `await p` once `p` has settled: a resolved promise gives its value, a
rejected one throws its reason at the `await`. -/
def await {α : Type} (settled : Except JSError α) : JS α := fun w => (settled, w)

/-- Reads the current state. -/
def getWorld : JS World := fun w => (.ok w, w)

/-- Applies a state update. -/
def modifyWorld (f : World → World) : JS Unit := fun w => (.ok (), f w)

/-! ## React state setters and console -/

/-- The call `setMessages(prev => f(prev))`. -/
def setMessagesWith (f : List Message → List Message) : JS Unit :=
  modifyWorld fun w => { w with messages := f w.messages }

/-- The call `setMessages(value)`. -/
def setMessages (value : List Message) : JS Unit :=
  modifyWorld fun w => { w with messages := value }

/-- The call `setInputMessage(value)`. -/
def setInputMessage (value : String) : JS Unit :=
  modifyWorld fun w => { w with inputMessage := value }

/-- The call `setIsLoading(value)`. -/
def setIsLoading (value : Bool) : JS Unit :=
  modifyWorld fun w => { w with isLoading := value }

/-- The call `setIsTyping(value)`. -/
def setIsTyping (value : Bool) : JS Unit :=
  modifyWorld fun w => { w with isTyping := value }

/-- The call `console.error(..)` (also used for `console.log`): one line of output. -/
def consoleError (line : String) : JS Unit :=
  modifyWorld fun w => { w with console := w.console ++ [line] }

/-! ## JavaScript strings -/

/-- The code points removed by `String.prototype.trim`: ECMAScript WhiteSpace
(TAB, VT, FF, SP, NBSP, ZWNBSP and the Unicode space separators) and
LineTerminator (LF, CR, LS, PS). -/
def isWhiteSpace (c : Char) : Bool :=
  let n := c.toNat
  n == 0x09 || n == 0x0A || n == 0x0B || n == 0x0C || n == 0x0D || n == 0x20 ||
  n == 0xA0 || n == 0x1680 || (0x2000 ≤ n && n ≤ 0x200A) || n == 0x2028 ||
  n == 0x2029 || n == 0x202F || n == 0x205F || n == 0x3000 || n == 0xFEFF

/-- The result of `String.prototype.trim` on the list of characters. -/
def trimChars (cs : List Char) : List Char :=
  ((cs.dropWhile isWhiteSpace).reverse.dropWhile isWhiteSpace).reverse

/-- The method `String.prototype.trim`. -/
def trim (s : String) : String := ⟨trimChars s.data⟩

/-- Truthiness of a JavaScript string: every string but the empty one. -/
def truthy (s : String) : Bool := !s.data.isEmpty

/-- Truthiness of a property holding an optional string: a missing property reads as
`undefined`, which is falsy. -/
def truthyOpt (s : Option String) : Bool :=
  match s with
  | some v => truthy v
  | none => false

/-- The expression `x || d` for an optional string `x` and a string `d`. -/
def orDefault (x : Option String) (d : String) : String :=
  match x with
  | some v => if truthy v then v else d
  | none => d

/-! ## `services/chatApi.js` -/

/-- The default value of every `sessionId` parameter in `chatApi.js`. -/
def defaultSessionId : String := "default"

/-- Records an axios call. -/
def axiosRequest (r : RestRequest) : JS Unit :=
  modifyWorld fun w => { w with requests := w.requests ++ [r] }

/-- A parameter with the default `'default'`: the default applies when the argument is
omitted (`none`). -/
def sessionIdOrDefault (sessionId : Option String) : String :=
  match sessionId with
  | some s => s
  | none => defaultSessionId

/-- The call `chatAPI.sendMessage(message, sessionId)` up to the returned promise:
`axios.post(API_BASE_URL + "/chat/message", { message, session_id: sessionId })`. -/
def chatAPI.sendMessage (message : String) (sessionId : Option String) : JS Unit :=
  axiosRequest
    { method := "POST", path := "/chat/message",
      payload := [("message", .str message),
                  ("session_id", .str (sessionIdOrDefault sessionId))] }

/-- The call `chatAPI.getHistory(sessionId, limit)` up to the returned promise; `limit`
is `none` for the default `null`, and `limit ? .. : ..` tests its truthiness (a number
is truthy unless it is `0`). -/
def chatAPI.getHistory (sessionId : Option String) (limit : Option Int) : JS Unit :=
  let sid := sessionIdOrDefault sessionId
  let params : List (String × Value) :=
    match limit with
    | some n => if n ≠ 0 then [("session_id", .str sid), ("limit", .num n)]
                else [("session_id", .str sid)]
    | none => [("session_id", .str sid)]
  axiosRequest { method := "GET", path := "/chat/history", payload := params }

/-- The call `chatAPI.clearHistory(sessionId)` up to the returned promise. -/
def chatAPI.clearHistory (sessionId : Option String) : JS Unit :=
  axiosRequest
    { method := "POST", path := "/chat/clear",
      payload := [("session_id", .str (sessionIdOrDefault sessionId))] }

/-- The call `this.socket.emit(event, payload)`. -/
def socketEmit (event : String) (payload : List (String × Value)) : JS Unit :=
  modifyWorld fun w => { w with emitted := w.emitted ++ [⟨event, payload⟩] }

/-- The test `this.socket && this.socket.connected`. -/
def ChatSocket.isConnected (self : ChatSocket) : Bool :=
  match self.socket with
  | some s => s.connected
  | none => false

/-- The method `ChatSocket.sendMessage(message)`. -/
def ChatSocket.sendMessage (self : ChatSocket) (message : String) : JS Unit :=
  if self.isConnected then
    socketEmit "chat_message"
      [("message", .str message), ("session_id", .str self.sessionId)]
  else
    consoleError "Socket not connected"

/-! ## `components/ChatWidget.js` -/

/-- The test `chatSocketRef.current?.socket?.connected`. -/
def socketConnected (w : World) : Bool :=
  match w.chatSocketRef with
  | some cs =>
    match cs.socket with
    | some s => s.connected
    | none => false
  | none => false

/-- The test `data.success && data.response` (in the fallback,
`response.data.success && response.data.response`): an object is truthy, a missing
property is not. -/
def ChatResponse.hasPayload (data : ChatResponse) : Bool :=
  data.success && data.response.isSome

/-- The call `chatSocketRef.current.sendMessage(message)`; calling a method on a `null`
ref throws a `TypeError`. -/
def chatSocketRefSendMessage (message : String) : JS Unit := do
  let w ← getWorld
  match w.chatSocketRef with
  | some cs => cs.sendMessage message
  | none => throw "TypeError: Cannot read properties of null"

/-- The callback registered with `chatSocketRef.current.onMessage(..)`: it runs once
for each inbound `chat_response`, with the payload `data`. -/
def onMessage (data : ChatResponse) (now : String) : JS Unit := do
  setIsTyping false
  if data.hasPayload then
    match data.response with
    | some response =>
      let assistantMessage : Message :=
        { role := "assistant", content := response.content, timestamp := now,
          type := orDefault response.type "text" }
      setMessagesWith fun prev => prev ++ [assistantMessage]
    | none => pure ()
  else if truthyOpt data.error then
    match data.error with
    | some error =>
      let errorMessage : Message :=
        { role := "assistant", content := "Error: " ++ error, timestamp := now,
          type := "error" }
      setMessagesWith fun prev => prev ++ [errorMessage]
    | none => pure ()
  else
    pure ()

/-- The function `loadHistory` up to its `await`: the call
`chatAPI.getHistory('default', 10)`. -/
def loadHistory : JS Unit :=
  chatAPI.getHistory (some "default") (some 10)

/-- The function `loadHistory` from its `await` on, once the promise of
`chatAPI.getHistory` has settled. -/
def loadHistory_resume (settled : Except JSError (AxiosResponse HistoryResponse)) :
    JS Unit := do
  try
    let response ← await settled
    if response.data.success then
      let history : List Message := response.data.history.map fun msg =>
        { role := msg.role, content := msg.content, timestamp := msg.timestamp,
          type := "text" }
      setMessages history
  catch error =>
    consoleError ("Failed to load chat history: " ++ error)

/-- The function `handleSendMessage` up to its `await` (or to its end, when it does not
reach the `await`). The `try` block is entered before `setIsLoading(true)`, but nothing
before the `await` throws. -/
def handleSendMessage (now : String) : JS Unit := do
  let w ← getWorld
  let inputMessage := w.inputMessage
  if !truthy (trim inputMessage) then
    return
  let userMessage : Message :=
    { role := "user", content := inputMessage, timestamp := now, type := "text" }
  setMessagesWith fun prev => prev ++ [userMessage]
  setInputMessage ""
  setIsTyping true
  if socketConnected w then
    chatSocketRefSendMessage inputMessage
  else
    setIsLoading true
    chatAPI.sendMessage inputMessage none

/-- The function `handleSendMessage` from its `await` on, once the promise of
`chatAPI.sendMessage` has settled: the rest of the `try` block, the `catch` and the
`finally`. -/
def handleSendMessage_resume (settled : Except JSError (AxiosResponse ChatResponse))
    (now : String) : JS Unit := do
  try
    let response ← await settled
    setIsTyping false
    if response.data.hasPayload then
      match response.data.response with
      | some payload =>
        let assistantMessage : Message :=
          { role := "assistant", content := payload.content, timestamp := now,
            type := orDefault payload.type "text" }
        setMessagesWith fun prev => prev ++ [assistantMessage]
      | none => pure ()
  catch error =>
    setIsTyping false
    let errorMessage : Message :=
      { role := "assistant",
        content := "Sorry, I encountered an error processing your request.",
        timestamp := now, type := "error" }
    setMessagesWith fun prev => prev ++ [errorMessage]
    consoleError ("Failed to send message: " ++ error)
  finally
    setIsLoading false

/-- The function `handleClearHistory` up to its `await`; `confirmed` is the result of
`window.confirm(..)`. -/
def handleClearHistory (confirmed : Bool) : JS Unit := do
  if confirmed then
    chatAPI.clearHistory none

/-- The function `handleClearHistory` from its `await` on, once the promise of
`chatAPI.clearHistory` has settled (it is reached only after a confirmation). -/
def handleClearHistory_resume (settled : Except JSError (AxiosResponse Unit))
    (now : String) : JS Unit := do
  try
    let _ ← await settled
    setMessages []
    let welcomeMessage : Message :=
      { role := "assistant", content := "Chat history cleared. How can I help you today?",
        timestamp := now, type := "text" }
    setMessages [welcomeMessage]
  catch error =>
    consoleError ("Failed to clear history: " ++ error)

/-! ## Mounting, events and traces -/

/-- The initial values of the `useState` cells and of `chatSocketRef`, with no effect
performed yet. -/
def initialWorld : World :=
  { isOpen := false, messages := [], inputMessage := "", isLoading := false,
    isTyping := false, chatSocketRef := none, emitted := [], requests := [],
    console := [], socketDisconnects := [] }

/-- The constructor of `ChatSocket`: `socket = null`, `sessionId = 'default'`. -/
def ChatSocket.new : ChatSocket := { socket := none, sessionId := "default" }

/-- The fields of a `ChatSocket` after `connect(sessionId)`: the session id is stored
and `io(..)` returns a socket that is not connected yet (the connection is
established later, by the transport), on which the listeners for `connect`,
`disconnect` and `error` are registered. -/
def ChatSocket.connect (self : ChatSocket) (sessionId : Option String) : ChatSocket :=
  { self with sessionId := sessionIdOrDefault sessionId,
              socket := some { connected := false,
                               listeners := [.onConnect, .onDisconnect, .onError] } }

/-- The fields of a `ChatSocket` after `onMessage(callback)`: when there is a socket the
callback is registered on it for `chat_response`. -/
def ChatSocket.onMessage (self : ChatSocket) : ChatSocket :=
  match self.socket with
  | some s => { self with socket := some { s with listeners := s.listeners ++ [.onChatResponse] } }
  | none => self

/-- The mount effect of the component up to the `await` of `loadHistory`: a fresh
`ChatSocket` is stored in `chatSocketRef`, connected, the `chat_response` callback is
registered, and the history is requested. -/
def mountEffect : JS Unit := do
  modifyWorld fun w =>
    { w with chatSocketRef := some (ChatSocket.new.connect none).onMessage }
  loadHistory

/-- The events that the send/receive cycle of the widget handles. -/
inductive WidgetEvent where
  /-- The `onChange` of the textarea: `setInputMessage(e.target.value)`. -/
  | input (value : String)
  /-- A call of `handleSendMessage` (send button, or Enter). -/
  | send (now : String)
  /-- An inbound `chat_response` on the socket. -/
  | chatResponse (data : ChatResponse) (now : String)
  /-- The promise of the REST fallback resolved. -/
  | fallbackResolved (response : AxiosResponse ChatResponse) (now : String)
  /-- The promise of the REST fallback rejected. -/
  | fallbackRejected (error : JSError) (now : String)

/-- The code that handles an event. -/
def WidgetEvent.handler (e : WidgetEvent) : JS Unit :=
  match e with
  | .input value => setInputMessage value
  | .send now => handleSendMessage now
  | .chatResponse data now => onMessage data now
  | .fallbackResolved response now => handleSendMessage_resume (.ok response) now
  | .fallbackRejected error now => handleSendMessage_resume (.error error) now

/-- Whether the event is a response to a send: an inbound `chat_response`, or the
fallback request resolving or rejecting. -/
def WidgetEvent.isResponse (e : WidgetEvent) : Bool :=
  match e with
  | .input _ => false
  | .send _ => false
  | .chatResponse _ _ => true
  | .fallbackResolved _ _ => true
  | .fallbackRejected _ _ => true

/-- The state after handling the events one after the other, in the order given. -/
def runEvents (es : List WidgetEvent) (w : World) : World :=
  es.foldl (fun acc e => e.handler.exec acc) w

/-! ## `class ChatSocket`: the other methods, the listeners and the transport events -/

/-- The method `ChatSocket.clearHistory()`. -/
def ChatSocket.clearHistory (self : ChatSocket) : JS Unit :=
  if self.isConnected then
    socketEmit "clear_history" [("session_id", .str self.sessionId)]
  else
    pure ()

/-- The events that the transport delivers on a socket. -/
inductive TransportEvent where
  | connect
  | disconnect
  | error (error : JSError)
  | chatResponse (data : ChatResponse) (now : String)
  deriving DecidableEq, Repr

/-- The event name, as passed to `socket.on`. -/
def TransportEvent.name (ev : TransportEvent) : String :=
  match ev with
  | .connect => "connect"
  | .disconnect => "disconnect"
  | .error _ => "error"
  | .chatResponse _ _ => "chat_response"

/-- The event name under which the source registers each listener. -/
def Listener.event (l : Listener) : String :=
  match l with
  | .onConnect => "connect"
  | .onDisconnect => "disconnect"
  | .onError => "error"
  | .onChatResponse => "chat_response"

/-- The body of a listener; `self` is the `ChatSocket` (`this`) as it is when the event
is delivered. Reading `this.socket.emit` on a `null` socket, or `data.success` on a
missing argument, throws a `TypeError`. -/
def Listener.run (l : Listener) (self : ChatSocket) (ev : TransportEvent) : JS Unit :=
  match l with
  | .onConnect => do
    consoleError "Connected to chat server"
    match self.socket with
    | some _ => socketEmit "join" [("session_id", .str self.sessionId)]
    | none => throw "TypeError: Cannot read properties of null"
  | .onDisconnect => consoleError "Disconnected from chat server"
  | .onError =>
    match ev with
    | .error error => consoleError ("Socket error: " ++ error)
    | _ => consoleError "Socket error: undefined"
  | .onChatResponse =>
    match ev with
    | .chatResponse data now => onMessage data now
    | _ => throw "TypeError: Cannot read properties of undefined"

/-- Calls the listeners one after the other; a listener that throws ends the
delivery. -/
def runListeners (ls : List Listener) (self : ChatSocket) (ev : TransportEvent) :
    JS Unit :=
  match ls with
  | [] => pure ()
  | l :: rest => do
    l.run self ev
    runListeners rest self ev

/-- The delivery of a transport event on the socket of a `ChatSocket`: the listeners
registered for the name of the event are called, in the order of registration. -/
def ChatSocket.dispatch (self : ChatSocket) (ev : TransportEvent) : JS Unit :=
  match self.socket with
  | some s => runListeners (s.listeners.filter fun l => l.event == ev.name) self ev
  | none => pure ()

/-- The `connected` property of the socket.io client once the transport reports an
event: the client sets it on `connect` and clears it on `disconnect`, before it calls
the listeners. The `ChatSocket` keeps holding the same socket. -/
def ChatSocket.afterEvent (self : ChatSocket) (ev : TransportEvent) : ChatSocket :=
  match self.socket with
  | some s =>
    match ev with
    | .connect => { self with socket := some { s with connected := true } }
    | .disconnect => { self with socket := some { s with connected := false } }
    | _ => self
  | none => self

/-- The call `this.socket.disconnect()`, with `self` the `ChatSocket` at the call (its
`socket` field is set to `null` only afterwards). The call is recorded; when the socket
is connected the socket.io client clears `connected` and delivers `disconnect` to the
listeners before the call returns, and when it is not connected no event is
delivered. -/
def socketDisconnect (self : ChatSocket) : JS Unit := do
  modifyWorld fun w =>
    { w with socketDisconnects := w.socketDisconnects ++ [w.emitted.length] }
  if self.isConnected then
    (self.afterEvent .disconnect).dispatch .disconnect
  else
    pure ()

/-- The method `ChatSocket.disconnect()`; the result is the object after the call. -/
def ChatSocket.disconnect (self : ChatSocket) : JS ChatSocket :=
  match self.socket with
  | some _ => do
    socketEmit "leave" [("session_id", .str self.sessionId)]
    socketDisconnect self
    pure { self with socket := none }
  | none => pure self

/-- A transport event on the socket held by `chatSocketRef.current`. -/
def transportEvent (ev : TransportEvent) : JS Unit := do
  let w ← getWorld
  match w.chatSocketRef with
  | some cs =>
    modifyWorld fun w => { w with chatSocketRef := some (cs.afterEvent ev) }
    (cs.afterEvent ev).dispatch ev
  | none => pure ()

/-- The cleanup of the mount effect: `chatSocketRef.current?.disconnect()`. -/
def unmountEffect : JS Unit := do
  let w ← getWorld
  match w.chatSocketRef with
  | some cs =>
    let cs1 ← cs.disconnect
    modifyWorld fun w => { w with chatSocketRef := some cs1 }
  | none => pure ()

/-- The operations on a `ChatSocket`: its methods, and the events of its transport. -/
inductive SocketOp where
  | connect (sessionId : Option String)
  | sendMessage (message : String)
  | onMessage
  | clearHistory
  | disconnect
  | event (ev : TransportEvent)
  deriving DecidableEq, Repr

/-- The object and the state after an operation. An exception thrown by a listener is
not caught by the code: it ends the delivery and the state reached is kept. -/
def SocketOp.apply (op : SocketOp) (self : ChatSocket) (w : World) : ChatSocket × World :=
  match op with
  | .connect sessionId => (self.connect sessionId, w)
  | .sendMessage message => (self, (self.sendMessage message).exec w)
  | .onMessage => (self.onMessage, w)
  | .clearHistory => (self, self.clearHistory.exec w)
  | .disconnect =>
    match self.disconnect w with
    | (.ok self1, w1) => (self1, w1)
    | (.error _, w1) => (self, w1)
  | .event ev => (self.afterEvent ev, ((self.afterEvent ev).dispatch ev).exec w)

/-- The object and the state after the operations, in the order given. -/
def runOps (ops : List SocketOp) (self : ChatSocket) (w : World) : ChatSocket × World :=
  match ops with
  | [] => (self, w)
  | op :: rest => runOps rest (op.apply self w).1 (op.apply self w).2

/-- Everything that happens to a mounted widget. -/
inductive SessionEvent where
  /-- An event of the send/receive cycle. -/
  | widget (e : WidgetEvent)
  /-- An event of the transport on the socket of the widget. -/
  | transport (ev : TransportEvent)
  /-- A click on the clear button, with the answer to the confirmation. -/
  | clear (confirmed : Bool)
  /-- The promise of `chatAPI.clearHistory` settled. -/
  | clearSettled (settled : Except JSError (AxiosResponse Unit)) (now : String)
  /-- The promise of `chatAPI.getHistory` settled. -/
  | historySettled (settled : Except JSError (AxiosResponse HistoryResponse))
  /-- The component is unmounted. -/
  | unmount

/-- The code that handles a session event. -/
def SessionEvent.handler (e : SessionEvent) : JS Unit :=
  match e with
  | .widget e => e.handler
  | .transport ev => transportEvent ev
  | .clear confirmed => handleClearHistory confirmed
  | .clearSettled settled now => handleClearHistory_resume settled now
  | .historySettled settled => loadHistory_resume settled
  | .unmount => unmountEffect

/-- Whether the session event is a response to a send. -/
def SessionEvent.isResponse (e : SessionEvent) : Bool :=
  match e with
  | .widget e => e.isResponse
  | .transport (.chatResponse _ _) => true
  | _ => false

/-- The state after handling the session events one after the other. -/
def runSession (es : List SessionEvent) (w : World) : World :=
  es.foldl (fun acc e => e.handler.exec acc) w

/-- The `session_id` property of the payload of an emission. -/
def Emission.sessionId (e : Emission) : Option Value :=
  e.payload.lookup "session_id"

/-- The `session_id` property of the body or of the query of a request. -/
def RestRequest.sessionId (r : RestRequest) : Option Value :=
  r.payload.lookup "session_id"

/-- Whether the operation is a call of `connect`. -/
def SocketOp.isConnect (op : SocketOp) : Bool :=
  match op with
  | .connect _ => true
  | _ => false

/-! ## Concrete states used by the examples -/

/-- A `ChatSocket` whose socket is connected, on the default session. -/
def connectedSocket : ChatSocket :=
  { socket := some { connected := true,
                     listeners := [.onConnect, .onDisconnect, .onError, .onChatResponse] },
    sessionId := "default" }

/-- A mounted widget with a connected socket and `hello` typed in the input. -/
def connectedWorld : World :=
  { initialWorld with inputMessage := "hello", chatSocketRef := some connectedSocket }

/-- A mounted widget whose socket is not connected, with `hello` typed in the input. -/
def disconnectedWorld : World :=
  { initialWorld with inputMessage := "hello",
                      chatSocketRef := some (ChatSocket.new.connect none).onMessage }

/-- A widget holding two earlier messages. -/
def twoMessageWorld : World :=
  { initialWorld with
      messages := [⟨"user", "hi", "2024-01-01T00:00:00.000Z", "text"⟩,
                   ⟨"assistant", "hello!", "2024-01-01T00:00:01.000Z", "text"⟩],
      isTyping := true,
      chatSocketRef := some (ChatSocket.new.connect none).onMessage }


/-! ## Lemmas on `trim` -/

theorem dropWhile_all_iff (p : Char → Bool) (cs : List Char) :
    (∀ c ∈ cs.dropWhile p, p c = true) ↔ ∀ c ∈ cs, p c = true := by
  induction cs with
  | nil => simp
  | cons a t ih =>
    by_cases ha : p a = true
    · simp [List.dropWhile_cons, ha, ih]
    · simp [List.dropWhile_cons, ha]

theorem trimChars_eq_nil_iff (cs : List Char) :
    trimChars cs = [] ↔ ∀ c ∈ cs, isWhiteSpace c = true := by
  unfold trimChars
  rw [List.reverse_eq_nil_iff, List.dropWhile_eq_nil_iff]
  simp only [List.mem_reverse]
  exact dropWhile_all_iff isWhiteSpace cs

theorem truthy_trim_eq_false_iff (s : String) :
    truthy (trim s) = false ↔ ∀ c ∈ s.data, isWhiteSpace c = true := by
  rw [← trimChars_eq_nil_iff]
  simp [truthy, trim]

theorem truthy_eq_true_iff (s : String) : truthy s = true ↔ s ≠ "" := by
  obtain ⟨cs⟩ := s
  cases cs <;> simp [truthy, String.ext_iff]

theorem truthy_trim_eq_true_iff (s : String) :
    truthy (trim s) = true ↔ ∃ c ∈ s.data, isWhiteSpace c = false := by
  have h := truthy_trim_eq_false_iff s
  constructor
  · intro ht
    by_contra hne
    push_neg at hne
    have hall : ∀ c ∈ s.data, isWhiteSpace c = true := fun c hc => by
      simpa using hne c hc
    rw [h.mpr hall] at ht
    exact Bool.false_ne_true ht
  · rintro ⟨c, hc, hw⟩
    cases ht : truthy (trim s) with
    | true => rfl
    | false =>
      have := h.mp ht c hc
      rw [hw] at this
      exact absurd this Bool.false_ne_true

/-! ## What each piece of code does to the state -/

theorem handleSendMessage_blank (w : World) (now : String)
    (h : truthy (trim w.inputMessage) = false) :
    handleSendMessage now w = (.ok (), w) := by
  simp [handleSendMessage, h, bind, JS.bind, getWorld, pure, JS.pure]

theorem handleSendMessage_fallback (w : World) (now : String)
    (h : truthy (trim w.inputMessage) = true) (hc : socketConnected w = false) :
    handleSendMessage now w = (.ok (),
      { w with
          messages := w.messages ++ [⟨"user", w.inputMessage, now, "text"⟩],
          inputMessage := "", isTyping := true, isLoading := true,
          requests := w.requests ++
            [⟨"POST", "/chat/message",
              [("message", .str w.inputMessage), ("session_id", .str "default")]⟩] }) := by
  simp [handleSendMessage, h, hc, bind, JS.bind, getWorld, pure, JS.pure, setMessagesWith,
    setInputMessage, setIsTyping, setIsLoading, modifyWorld, chatAPI.sendMessage,
    axiosRequest, sessionIdOrDefault, defaultSessionId]

theorem socketConnected_iff (w : World) :
    socketConnected w = true ↔
      ∃ cs, w.chatSocketRef = some cs ∧ cs.isConnected = true := by
  unfold socketConnected ChatSocket.isConnected
  cases w.chatSocketRef with
  | none => simp
  | some cs => cases cs.socket <;> simp

theorem handleSendMessage_socket (w : World) (now : String) (cs : ChatSocket)
    (h : truthy (trim w.inputMessage) = true) (hr : w.chatSocketRef = some cs)
    (hc : cs.isConnected = true) :
    handleSendMessage now w = (.ok (),
      { w with
          messages := w.messages ++ [⟨"user", w.inputMessage, now, "text"⟩],
          inputMessage := "", isTyping := true,
          emitted := w.emitted ++
            [⟨"chat_message",
              [("message", .str w.inputMessage), ("session_id", .str cs.sessionId)]⟩] }) := by
  have hsc : socketConnected w = true := (socketConnected_iff w).mpr ⟨cs, hr, hc⟩
  simp [handleSendMessage, h, hsc, hr, hc, bind, JS.bind, getWorld, pure, JS.pure,
    setMessagesWith, setInputMessage, setIsTyping, modifyWorld, chatSocketRefSendMessage,
    ChatSocket.sendMessage, socketEmit]

theorem handleSendMessage_resume_rejected (w : World) (e now : String) :
    handleSendMessage_resume (.error e) now w = (.ok (),
      { w with
          messages := w.messages ++
            [⟨"assistant", "Sorry, I encountered an error processing your request.", now,
              "error"⟩],
          isTyping := false, isLoading := false,
          console := w.console ++ ["Failed to send message: " ++ e] }) := rfl

theorem handleSendMessage_resume_payload (w : World) (now : String)
    (data : ChatResponse) (p : ResponsePayload)
    (hs : data.success = true) (hp : data.response = some p) :
    handleSendMessage_resume (.ok ⟨data⟩) now w = (.ok (),
      { w with
          messages := w.messages ++ [⟨"assistant", p.content, now, orDefault p.type "text"⟩],
          isTyping := false, isLoading := false }) := by
  obtain ⟨s, resp, err⟩ := data
  simp only at hs hp
  subst hs hp
  rfl

theorem handleSendMessage_resume_nopayload (w : World) (now : String)
    (data : ChatResponse) (h : data.hasPayload = false) :
    handleSendMessage_resume (.ok ⟨data⟩) now w = (.ok (),
      { w with isTyping := false, isLoading := false }) := by
  obtain ⟨s, resp, err⟩ := data
  cases s <;> cases resp <;> simp [ChatResponse.hasPayload] at h <;> rfl

theorem onMessage_payload (w : World) (now : String)
    (data : ChatResponse) (p : ResponsePayload)
    (hs : data.success = true) (hp : data.response = some p) :
    onMessage data now w = (.ok (),
      { w with
          messages := w.messages ++ [⟨"assistant", p.content, now, orDefault p.type "text"⟩],
          isTyping := false }) := by
  obtain ⟨s, resp, err⟩ := data
  simp only at hs hp
  subst hs hp
  rfl

theorem onMessage_error (w : World) (now : String) (data : ChatResponse) (e : String)
    (h : data.hasPayload = false)
    (he : data.error = some e) (hne : truthy e = true) :
    onMessage data now w = (.ok (),
      { w with
          messages := w.messages ++ [⟨"assistant", "Error: " ++ e, now, "error"⟩],
          isTyping := false }) := by
  obtain ⟨s, resp, err⟩ := data
  simp only at h he
  subst he
  simp [onMessage, h, truthyOpt, hne, bind, JS.bind, pure, JS.pure, setIsTyping,
    setMessagesWith, modifyWorld]

theorem onMessage_neither (w : World) (now : String) (data : ChatResponse)
    (h : data.hasPayload = false)
    (he : truthyOpt data.error = false) :
    onMessage data now w = (.ok (), { w with isTyping := false }) := by
  obtain ⟨s, resp, err⟩ := data
  simp only at h he
  simp [onMessage, h, he, bind, JS.bind, pure, JS.pure, setIsTyping, modifyWorld]

theorem send_accepted_store (w : World) (now : String)
    (h : truthy (trim w.inputMessage) = true) :
    (handleSendMessage now).completion w = .ok () ∧
    ((handleSendMessage now).exec w).messages
      = w.messages ++ [⟨"user", w.inputMessage, now, "text"⟩] ∧
    ((handleSendMessage now).exec w).isTyping = true := by
  cases hc : socketConnected w with
  | false => simp [JS.exec, JS.completion, handleSendMessage_fallback w now h hc]
  | true =>
    obtain ⟨cs, hr, hcs⟩ := (socketConnected_iff w).mp hc
    simp [JS.exec, JS.completion, handleSendMessage_socket w now cs h hr hcs]

theorem onMessage_added (w : World) (data : ChatResponse) (now : String) :
    ∃ added : List Message,
      ((onMessage data now).exec w).messages = w.messages ++ added ∧
      ((onMessage data now).exec w).isTyping = false ∧
      (∀ m ∈ added, m.role = "assistant") ∧
      added.length = if data.hasPayload || truthyOpt data.error then 1 else 0 := by
  cases hp : data.hasPayload with
  | true =>
    have hs : data.success = true := by
      simp [ChatResponse.hasPayload] at hp; exact hp.1
    have hr : data.response.isSome = true := by
      simp [ChatResponse.hasPayload] at hp; exact hp.2
    obtain ⟨p, hp2⟩ := Option.isSome_iff_exists.mp hr
    refine ⟨[⟨"assistant", p.content, now, orDefault p.type "text"⟩], ?_, ?_, by simp,
      by simp⟩ <;> rw [JS.exec, onMessage_payload w now data p hs hp2]
  | false =>
    cases he : truthyOpt data.error with
    | false =>
      refine ⟨[], ?_, ?_, by simp, by simp⟩ <;>
        rw [JS.exec, onMessage_neither w now data hp he]
      simp
    | true =>
      cases hd : data.error with
      | none => simp [hd, truthyOpt] at he
      | some e =>
        have hne : truthy e = true := by simpa [hd, truthyOpt] using he
        refine ⟨[⟨"assistant", "Error: " ++ e, now, "error"⟩], ?_, ?_, by simp,
          by simp⟩ <;> rw [JS.exec, onMessage_error w now data e hp hd hne]

theorem resume_added (w : World)
    (settled : Except JSError (AxiosResponse ChatResponse)) (now : String) :
    ∃ added : List Message,
      ((handleSendMessage_resume settled now).exec w).messages = w.messages ++ added ∧
      ((handleSendMessage_resume settled now).exec w).isTyping = false ∧
      (∀ m ∈ added, m.role = "assistant") ∧
      added.length =
        match settled with
        | .ok response => if response.data.hasPayload then 1 else 0
        | .error _ => 1 := by
  cases settled with
  | error e =>
    refine ⟨[⟨"assistant", "Sorry, I encountered an error processing your request.", now,
      "error"⟩], ?_, ?_, by simp, by simp⟩ <;>
      rw [JS.exec, handleSendMessage_resume_rejected]
  | ok response =>
    obtain ⟨data⟩ := response
    cases hp : data.hasPayload with
    | true =>
      have hs : data.success = true := by
        simp [ChatResponse.hasPayload] at hp; exact hp.1
      have hr : data.response.isSome = true := by
        simp [ChatResponse.hasPayload] at hp; exact hp.2
      obtain ⟨p, hp2⟩ := Option.isSome_iff_exists.mp hr
      refine ⟨[⟨"assistant", p.content, now, orDefault p.type "text"⟩], ?_, ?_, by simp,
        by simp [hp]⟩ <;> rw [JS.exec, handleSendMessage_resume_payload w now data p hs hp2]
    | false =>
      refine ⟨[], ?_, ?_, by simp, by simp [hp]⟩ <;>
        rw [JS.exec, handleSendMessage_resume_nopayload w now data hp]
      simp

/-! ## The claims -/

/-- C2: when the input text is empty or made of white space only, `handleSendMessage`
completes normally and leaves the whole state as it was: the message store, `isTyping`,
the socket emissions and the REST requests are all unchanged. -/
theorem C2_blank_send_is_noop (w : World) (now : String)
    (h : ∀ c ∈ w.inputMessage.data, isWhiteSpace c = true) :
    handleSendMessage now w = (.ok (), w) ∧
    ((handleSendMessage now).exec w).messages = w.messages ∧
    ((handleSendMessage now).exec w).isTyping = w.isTyping ∧
    ((handleSendMessage now).exec w).emitted = w.emitted ∧
    ((handleSendMessage now).exec w).requests = w.requests := by
  have hb := handleSendMessage_blank w now ((truthy_trim_eq_false_iff _).mpr h)
  refine ⟨hb, ?_, ?_, ?_, ?_⟩ <;> rw [JS.exec, hb]

/-- C2 (witness): a widget holding two messages, typing, with the input ` \t\n `. -/
theorem C2_blank_send_is_noop_witness :
    (∀ c ∈ ({ twoMessageWorld with inputMessage := " \t\n " } : World).inputMessage.data,
      isWhiteSpace c = true) ∧
    handleSendMessage "t1" { twoMessageWorld with inputMessage := " \t\n " }
      = (.ok (), { twoMessageWorld with inputMessage := " \t\n " }) :=
  ⟨by decide,
    (C2_blank_send_is_noop { twoMessageWorld with inputMessage := " \t\n " } "t1"
      (by decide)).1⟩

/-- C3: for every input text that is non-empty after trimming, `handleSendMessage`
dispatches exactly one request: when `chatSocketRef.current?.socket?.connected` holds,
one `chat_message` emission (carrying the text and the session id of the socket) and no
REST request; otherwise one `POST /chat/message` and no emission. -/
theorem C3_exactly_one_request (w : World) (now : String)
    (h : trim w.inputMessage ≠ "") :
    (socketConnected w = true →
      ∃ cs, w.chatSocketRef = some cs ∧
        ((handleSendMessage now).exec w).emitted
          = w.emitted ++ [⟨"chat_message",
              [("message", .str w.inputMessage), ("session_id", .str cs.sessionId)]⟩] ∧
        ((handleSendMessage now).exec w).requests = w.requests) ∧
    (socketConnected w = false →
      ((handleSendMessage now).exec w).emitted = w.emitted ∧
      ((handleSendMessage now).exec w).requests
        = w.requests ++ [⟨"POST", "/chat/message",
            [("message", .str w.inputMessage), ("session_id", .str "default")]⟩]) := by
  have ht : truthy (trim w.inputMessage) = true := (truthy_eq_true_iff _).mpr h
  constructor
  · intro hc
    obtain ⟨cs, hr, hcs⟩ := (socketConnected_iff w).mp hc
    refine ⟨cs, hr, ?_, ?_⟩ <;> rw [JS.exec, handleSendMessage_socket w now cs ht hr hcs]
  · intro hc
    constructor <;> rw [JS.exec, handleSendMessage_fallback w now ht hc]

/-- C3 (witness): the connected widget emits one `chat_message` and issues no request;
the disconnected widget issues one `POST /chat/message` and emits nothing. -/
theorem C3_exactly_one_request_witness :
    (trim connectedWorld.inputMessage ≠ "" ∧ socketConnected connectedWorld = true ∧
      ∃ cs, connectedWorld.chatSocketRef = some cs ∧
        ((handleSendMessage "t1").exec connectedWorld).emitted
          = connectedWorld.emitted ++ [⟨"chat_message",
              [("message", .str connectedWorld.inputMessage),
               ("session_id", .str cs.sessionId)]⟩] ∧
        ((handleSendMessage "t1").exec connectedWorld).requests
          = connectedWorld.requests) ∧
    (trim disconnectedWorld.inputMessage ≠ "" ∧ socketConnected disconnectedWorld = false ∧
      ((handleSendMessage "t1").exec disconnectedWorld).emitted
        = disconnectedWorld.emitted ∧
      ((handleSendMessage "t1").exec disconnectedWorld).requests
        = disconnectedWorld.requests ++ [⟨"POST", "/chat/message",
            [("message", .str disconnectedWorld.inputMessage),
             ("session_id", .str "default")]⟩]) :=
  ⟨⟨by decide, by decide,
      (C3_exactly_one_request connectedWorld "t1" (by decide)).1 (by decide)⟩,
    ⟨by decide, by decide,
      (C3_exactly_one_request disconnectedWorld "t1" (by decide)).2 (by decide)⟩⟩

/-- C4: for every input text that is non-empty after trimming, sent while the socket
is absent or not connected, when the fallback request rejects (with any reason) both
parts of `handleSendMessage` complete normally, the store is the store before the send
followed by the user message and one assistant message of type `error` with the
fixed text (so it has grown by exactly 2), and `isTyping` and `isLoading` are false. -/
theorem C4_fallback_rejection (w : World) (now now2 : String) (error : JSError)
    (h : trim w.inputMessage ≠ "") (hc : socketConnected w = false) :
    (handleSendMessage now).completion w = .ok () ∧
    (handleSendMessage_resume (.error error) now2).completion
        ((handleSendMessage now).exec w) = .ok () ∧
    ((handleSendMessage_resume (.error error) now2).exec
        ((handleSendMessage now).exec w)).messages
      = w.messages ++
          [⟨"user", w.inputMessage, now, "text"⟩,
           ⟨"assistant", "Sorry, I encountered an error processing your request.", now2,
             "error"⟩] ∧
    ((handleSendMessage_resume (.error error) now2).exec
        ((handleSendMessage now).exec w)).messages.length = w.messages.length + 2 ∧
    ((handleSendMessage_resume (.error error) now2).exec
        ((handleSendMessage now).exec w)).isTyping = false ∧
    ((handleSendMessage_resume (.error error) now2).exec
        ((handleSendMessage now).exec w)).isLoading = false := by
  have ht : truthy (trim w.inputMessage) = true := (truthy_eq_true_iff _).mpr h
  simp [JS.exec, JS.completion, handleSendMessage_fallback w now ht hc,
    handleSendMessage_resume_rejected]

/-- C4 (witness): the disconnected widget with `hello` typed, the request rejecting with
`Network Error`. -/
theorem C4_fallback_rejection_witness :
    trim disconnectedWorld.inputMessage ≠ "" ∧ socketConnected disconnectedWorld = false ∧
    ((handleSendMessage_resume (.error "Network Error") "t2").exec
        ((handleSendMessage "t1").exec disconnectedWorld)).messages.length
      = disconnectedWorld.messages.length + 2 :=
  ⟨by decide, by decide,
    (C4_fallback_rejection disconnectedWorld "t1" "t2" "Network Error" (by decide)
      (by decide)).2.2.2.1⟩

/-- C5 (counterexample): a successful `chat_response` whose payload gives the type as
the empty string: the appended assistant message has type `text`, not the type given
in the payload. The REST fallback does the same. -/
theorem C5_counterexample :
    (⟨"done", some ""⟩ : ResponsePayload).type = some "" ∧
    ((onMessage ⟨true, some ⟨"done", some ""⟩, none⟩ "t2").exec connectedWorld).messages
      = connectedWorld.messages ++ [⟨"assistant", "done", "t2", "text"⟩] ∧
    ((handleSendMessage_resume (.ok ⟨⟨true, some ⟨"done", some ""⟩, none⟩⟩) "t2").exec
        disconnectedWorld).messages
      = disconnectedWorld.messages ++ [⟨"assistant", "done", "t2", "text"⟩] ∧
    (⟨"assistant", "done", "t2", "text"⟩ : Message).type ≠ "" := by
  refine ⟨rfl, by decide, by decide, by decide⟩

/-- C5 (as amended): for every successful response carrying a payload, on either
channel, exactly one assistant message is appended; its content is the content of the
payload and its type is the type of the payload when one is given and is not the
empty string, and `text` when the type is missing or empty; `isTyping` is false
afterwards. With the socket connected and a text that is non-empty after trimming, the
store has one more message after the send and two more after the `chat_response`. -/
theorem C5_success_appends_assistant (w : World) (now : String) (data : ChatResponse)
    (p : ResponsePayload) (hs : data.success = true) (hp : data.response = some p) :
    (∃ type : String,
      ((onMessage data now).exec w).messages
        = w.messages ++ [⟨"assistant", p.content, now, type⟩] ∧
      ((handleSendMessage_resume (.ok ⟨data⟩) now).exec w).messages
        = w.messages ++ [⟨"assistant", p.content, now, type⟩] ∧
      (∀ k, p.type = some k → k ≠ "" → type = k) ∧
      (p.type = none ∨ p.type = some "" → type = "text")) ∧
    ((onMessage data now).exec w).isTyping = false ∧
    ((handleSendMessage_resume (.ok ⟨data⟩) now).exec w).isTyping = false ∧
    (∀ now0, trim w.inputMessage ≠ "" → socketConnected w = true →
      ((handleSendMessage now0).exec w).messages.length = w.messages.length + 1 ∧
      ((onMessage data now).exec ((handleSendMessage now0).exec w)).messages.length
        = w.messages.length + 2) := by
  refine ⟨⟨orDefault p.type "text", ?_, ?_, ?_, ?_⟩, ?_, ?_, ?_⟩
  · rw [JS.exec, onMessage_payload w now data p hs hp]
  · rw [JS.exec, handleSendMessage_resume_payload w now data p hs hp]
  · intro k hk hne
    have : truthy k = true := (truthy_eq_true_iff k).mpr hne
    simp [orDefault, hk, this]
  · rintro (hn | he)
    · simp [orDefault, hn]
    · simp [orDefault, he, truthy]
  · rw [JS.exec, onMessage_payload w now data p hs hp]
  · rw [JS.exec, handleSendMessage_resume_payload w now data p hs hp]
  · intro now0 h _
    have ht : truthy (trim w.inputMessage) = true := (truthy_eq_true_iff _).mpr h
    obtain ⟨_, h2, _⟩ := send_accepted_store w now0 ht
    constructor
    · rw [h2]; simp
    · rw [JS.exec, onMessage_payload _ now data p hs hp]
      simp only [List.length_append, List.length_singleton]
      rw [h2]; simp

/-- C5 (witness): the scenario of the specification, `Show all models` sent over a
connected socket and answered with a `text` payload. -/
theorem C5_success_appends_assistant_witness :
    trim ({ connectedWorld with inputMessage := "Show all models" } : World).inputMessage
      ≠ "" ∧
    socketConnected { connectedWorld with inputMessage := "Show all models" } = true ∧
    ((handleSendMessage "t1").exec
      { connectedWorld with inputMessage := "Show all models" }).messages.length
      = ({ connectedWorld with inputMessage := "Show all models" } : World).messages.length
          + 1 ∧
    ((onMessage ⟨true, some ⟨"3 models", some "text"⟩, none⟩ "t2").exec
      ((handleSendMessage "t1").exec
        { connectedWorld with inputMessage := "Show all models" })).messages.length
      = ({ connectedWorld with inputMessage := "Show all models" } : World).messages.length
          + 2 :=
  ⟨by decide, by decide,
    (C5_success_appends_assistant { connectedWorld with inputMessage := "Show all models" }
      "t2" ⟨true, some ⟨"3 models", some "text"⟩, none⟩ ⟨"3 models", some "text"⟩ rfl rfl).2.2.2
      "t1" (by decide) (by decide)⟩


/-- C6 (counterexample): on a widget holding two messages, a declined confirmation, and
a confirmed clear whose request rejects, both leave the two messages in the store: its
length is 2, not 1. -/
theorem C6_counterexample :
    ((handleClearHistory false).exec twoMessageWorld).messages.length = 2 ∧
    ((handleClearHistory_resume (.error "Network Error") "t2").exec
        ((handleClearHistory true).exec twoMessageWorld)).messages.length = 2 ∧
    ((handleClearHistory_resume (.error "Network Error") "t2").exec
        ((handleClearHistory true).exec twoMessageWorld)).messages
      = twoMessageWorld.messages := by
  refine ⟨by decide, by decide, by decide⟩

/-- C6 (as amended): for every prior content of the message store, when the user
confirms and the clear request resolves, `handleClearHistory` completes normally and
leaves the store with exactly one element, the assistant welcome message of type
`text`. -/
theorem C6_clear_leaves_welcome (w : World) (now : String) (response : AxiosResponse Unit) :
    (handleClearHistory_resume (.ok response) now).completion
        ((handleClearHistory true).exec w) = .ok () ∧
    ((handleClearHistory_resume (.ok response) now).exec
        ((handleClearHistory true).exec w)).messages
      = [⟨"assistant", "Chat history cleared. How can I help you today?", now, "text"⟩] ∧
    ((handleClearHistory_resume (.ok response) now).exec
        ((handleClearHistory true).exec w)).messages.length = 1 :=
  ⟨rfl, rfl, rfl⟩

/-- C7: when the clear request rejects, `handleClearHistory` completes normally and the
message store and `isTyping` are as they were before the call (only a console line is
added); when the user declines the confirmation the whole state is unchanged, so no
request is issued. -/
theorem C7_clear_failure_keeps_store (w : World) (now : String) (error : JSError) :
    (handleClearHistory true).completion w = .ok () ∧
    (handleClearHistory_resume (.error error) now).completion
        ((handleClearHistory true).exec w) = .ok () ∧
    ((handleClearHistory_resume (.error error) now).exec
        ((handleClearHistory true).exec w)).messages = w.messages ∧
    ((handleClearHistory_resume (.error error) now).exec
        ((handleClearHistory true).exec w)).isTyping = w.isTyping ∧
    (handleClearHistory_resume (.error error) now) w
      = (.ok (), { w with console := w.console ++ ["Failed to clear history: " ++ error] }) ∧
    handleClearHistory false w = (.ok (), w) ∧
    ((handleClearHistory false).exec w).requests = w.requests :=
  ⟨rfl, rfl, rfl, rfl, rfl, rfl, rfl⟩

/-- C8: for every prior content of the store and every history response with
`success` true, `loadHistory` completes normally and replaces the store: afterwards it
holds exactly as many messages as the response has records, the i-th with the role,
content and timestamp of the i-th record and type `text`. -/
theorem C8_load_replaces_store (w : World) (response : AxiosResponse HistoryResponse)
    (h : response.data.success = true) :
    (loadHistory_resume (.ok response)).completion (loadHistory.exec w) = .ok () ∧
    ((loadHistory_resume (.ok response)).exec (loadHistory.exec w)).messages
      = response.data.history.map
          (fun r => (⟨r.role, r.content, r.timestamp, "text"⟩ : Message)) ∧
    ((loadHistory_resume (.ok response)).exec (loadHistory.exec w)).messages.length
      = response.data.history.length ∧
    (∀ (i : Nat) (r : HistoryRecord), response.data.history[i]? = some r →
      ((loadHistory_resume (.ok response)).exec (loadHistory.exec w)).messages[i]?
        = some ⟨r.role, r.content, r.timestamp, "text"⟩) := by
  obtain ⟨⟨s, hist⟩⟩ := response
  simp only at h
  subst h
  have hm : ((loadHistory_resume (.ok ⟨⟨true, hist⟩⟩)).exec (loadHistory.exec w)).messages
      = hist.map (fun r => (⟨r.role, r.content, r.timestamp, "text"⟩ : Message)) := rfl
  refine ⟨rfl, hm, ?_, ?_⟩
  · rw [hm, List.length_map]
  · intro i r hi
    rw [hm, List.getElem?_map, hi]
    rfl

/-- C8 (witness): a store holding two messages is replaced by the two records of the
response, in their order. -/
theorem C8_load_replaces_store_witness :
    (⟨⟨true, [⟨"user", "a", "t1"⟩, ⟨"assistant", "b", "t2"⟩]⟩⟩ :
      AxiosResponse HistoryResponse).data.success = true ∧
    ((loadHistory_resume
        (.ok ⟨⟨true, [⟨"user", "a", "t1"⟩, ⟨"assistant", "b", "t2"⟩]⟩⟩)).exec
      (loadHistory.exec twoMessageWorld)).messages
      = (⟨⟨true, [⟨"user", "a", "t1"⟩, ⟨"assistant", "b", "t2"⟩]⟩⟩ :
          AxiosResponse HistoryResponse).data.history.map
          (fun r => (⟨r.role, r.content, r.timestamp, "text"⟩ : Message)) :=
  ⟨rfl, (C8_load_replaces_store twoMessageWorld
    ⟨⟨true, [⟨"user", "a", "t1"⟩, ⟨"assistant", "b", "t2"⟩]⟩⟩ rfl).2.1⟩

/-- C9 (counterexample): the widget is mounted (the history is requested), the user
types `hi` and sends it over the fallback, and then the history request rejects: the
store holds the user message, it is not empty. -/
theorem C9_counterexample :
    (runEvents [.input "hi", .send "t1"] (mountEffect.exec initialWorld)).requests
      = [⟨"GET", "/chat/history", [("session_id", .str "default"), ("limit", .num 10)]⟩,
         ⟨"POST", "/chat/message", [("message", .str "hi"), ("session_id", .str "default")]⟩] ∧
    ((loadHistory_resume (.error "Network Error")).exec
        (runEvents [.input "hi", .send "t1"] (mountEffect.exec initialWorld))).messages
      = [⟨"user", "hi", "t1", "text"⟩] ∧
    ((loadHistory_resume (.error "Network Error")).exec
        (runEvents [.input "hi", .send "t1"] (mountEffect.exec initialWorld))).messages
      ≠ [] := by
  refine ⟨by decide, by decide, by decide⟩

/-- C9 (as amended): when the history request rejects, `loadHistory` completes normally
and the message store is exactly as it was when the rejection was handled (only a
console line is added); in particular the store is empty afterwards when the rejection
is handled right after mounting. -/
theorem C9_load_failure_keeps_store (w : World) (error : JSError) :
    (loadHistory_resume (.error error)).completion w = .ok () ∧
    ((loadHistory_resume (.error error)).exec w).messages = w.messages ∧
    (loadHistory_resume (.error error)) w
      = (.ok (), { w with console := w.console ++ ["Failed to load chat history: " ++ error] }) ∧
    ((loadHistory_resume (.error error)).exec (mountEffect.exec initialWorld)).messages
      = [] :=
  ⟨rfl, rfl, rfl, rfl⟩


/-- C10: the message sequence is append-only. For every state and every event of the
send/receive cycle (typing, a send, an inbound `chat_response`, the fallback resolving
or rejecting), the store after the event is the store before it followed by at most
one new message; and for every sequence of such events, the store after handling more
events is the store after handling fewer followed by new messages, so the store order
is the order in which the events were handled. -/
theorem C10_append_only :
    (∀ (w : World) (e : WidgetEvent), ∃ added : List Message,
      (e.handler.exec w).messages = w.messages ++ added ∧ added.length ≤ 1) ∧
    (∀ (w : World) (es more : List WidgetEvent), ∃ added : List Message,
      (runEvents (es ++ more) w).messages = (runEvents es w).messages ++ added) := by
  have step : ∀ (w : World) (e : WidgetEvent), ∃ added : List Message,
      (e.handler.exec w).messages = w.messages ++ added ∧ added.length ≤ 1 := by
    intro w e
    cases e with
    | input value =>
      exact ⟨[], by simp [WidgetEvent.handler, JS.exec, setInputMessage, modifyWorld],
        by simp⟩
    | send now =>
      cases ht : truthy (trim w.inputMessage) with
      | false =>
        refine ⟨[], ?_, by simp⟩
        simp only [WidgetEvent.handler]
        rw [JS.exec, handleSendMessage_blank w now ht]
        simp
      | true =>
        exact ⟨[⟨"user", w.inputMessage, now, "text"⟩],
          (send_accepted_store w now ht).2.1, by simp⟩
    | chatResponse data now =>
      obtain ⟨added, hm, _, _, hl⟩ := onMessage_added w data now
      refine ⟨added, hm, ?_⟩
      rw [hl]; split <;> simp
    | fallbackResolved response now =>
      obtain ⟨added, hm, _, _, hl⟩ := resume_added w (.ok response) now
      refine ⟨added, hm, ?_⟩
      simp only at hl
      rw [hl]; split <;> simp
    | fallbackRejected error now =>
      obtain ⟨added, hm, _, _, hl⟩ := resume_added w (.error error) now
      refine ⟨added, hm, ?_⟩
      rw [hl]
  have run : ∀ (more : List WidgetEvent) (w : World), ∃ added : List Message,
      (runEvents more w).messages = w.messages ++ added := by
    intro more
    induction more with
    | nil => intro w; exact ⟨[], by simp [runEvents]⟩
    | cons e rest ih =>
      intro w
      obtain ⟨a1, h1, _⟩ := step w e
      obtain ⟨a2, h2⟩ := ih (e.handler.exec w)
      refine ⟨a1 ++ a2, ?_⟩
      have : runEvents (e :: rest) w = runEvents rest (e.handler.exec w) := rfl
      rw [this, h2, h1, List.append_assoc]
  refine ⟨step, ?_⟩
  intro w es more
  have : runEvents (es ++ more) w = runEvents more (runEvents es w) := by
    simp [runEvents, List.foldl_append]
  rw [this]
  exact run more (runEvents es w)


/-! ## More facts on the code -/

theorem runEvents_append (es more : List WidgetEvent) (w : World) :
    runEvents (es ++ more) w = runEvents more (runEvents es w) := by
  simp [runEvents, List.foldl_append]

theorem hasPayload_eq_false_iff (data : ChatResponse) :
    data.hasPayload = false ↔ data.success = false ∨ data.response = none := by
  obtain ⟨s, resp, err⟩ := data
  cases s <;> cases resp <;> simp [ChatResponse.hasPayload]

/-- C11: the typing indicator is one boolean. A send of a text that is non-empty
after trimming, issued while `isTyping` is true, leaves it true; and after any sequence
of events of the send/receive cycle (so with any number of sends outstanding), the next
`chat_response`, resolved fallback or rejected fallback sets it to false. -/
theorem C11_typing_flag (w : World) (now : String)
    (h : trim w.inputMessage ≠ "") (hty : w.isTyping = true) :
    ((handleSendMessage now).exec w).isTyping = w.isTyping ∧
    ((handleSendMessage now).exec w).isTyping = true ∧
    (∀ (es : List WidgetEvent) (data : ChatResponse) (now2 : String),
      (runEvents (es ++ [.chatResponse data now2]) w).isTyping = false) ∧
    (∀ (es : List WidgetEvent) (response : AxiosResponse ChatResponse) (now2 : String),
      (runEvents (es ++ [.fallbackResolved response now2]) w).isTyping = false) ∧
    (∀ (es : List WidgetEvent) (error : JSError) (now2 : String),
      (runEvents (es ++ [.fallbackRejected error now2]) w).isTyping = false) := by
  have ht : truthy (trim w.inputMessage) = true := (truthy_eq_true_iff _).mpr h
  have h3 := (send_accepted_store w now ht).2.2
  refine ⟨by rw [h3, hty], h3, ?_, ?_, ?_⟩
  · intro es data now2
    rw [runEvents_append]
    obtain ⟨_, _, hf, _⟩ := onMessage_added (runEvents es w) data now2
    exact hf
  · intro es response now2
    rw [runEvents_append]
    obtain ⟨_, _, hf, _⟩ := resume_added (runEvents es w) (.ok response) now2
    exact hf
  · intro es error now2
    rw [runEvents_append]
    obtain ⟨_, _, hf, _⟩ := resume_added (runEvents es w) (.error error) now2
    exact hf

/-- C11 (witness): on a widget that is typing, with `again` in the input, a send keeps
`isTyping` true; after three sends, one `chat_response` clears it. -/
theorem C11_typing_flag_witness :
    trim ({ twoMessageWorld with inputMessage := "again" } : World).inputMessage ≠ "" ∧
    ({ twoMessageWorld with inputMessage := "again" } : World).isTyping = true ∧
    ((handleSendMessage "t1").exec
      { twoMessageWorld with inputMessage := "again" }).isTyping = true ∧
    (runEvents
      ([.send "t1", .input "b", .send "t2", .input "c", .send "t3"] ++
        [.chatResponse ⟨true, some ⟨"ok", none⟩, none⟩ "t4"])
      { twoMessageWorld with inputMessage := "again" }).isTyping = false :=
  ⟨by decide, by decide,
    (C11_typing_flag { twoMessageWorld with inputMessage := "again" } "t1" (by decide)
      (by decide)).2.1,
    (C11_typing_flag { twoMessageWorld with inputMessage := "again" } "t1" (by decide)
      (by decide)).2.2.1 [.send "t1", .input "b", .send "t2", .input "c", .send "t3"]
      ⟨true, some ⟨"ok", none⟩, none⟩ "t4"⟩


theorem onMessage_world (w : World) (data : ChatResponse) (now : String) :
    ∃ added : List Message,
      onMessage data now w
        = (.ok (), { w with messages := w.messages ++ added, isTyping := false }) := by
  cases hp : data.hasPayload with
  | true =>
    have hs : data.success = true := by
      simp [ChatResponse.hasPayload] at hp; exact hp.1
    have hr : data.response.isSome = true := by
      simp [ChatResponse.hasPayload] at hp; exact hp.2
    obtain ⟨p, hp2⟩ := Option.isSome_iff_exists.mp hr
    exact ⟨_, onMessage_payload w now data p hs hp2⟩
  | false =>
    cases he : truthyOpt data.error with
    | false =>
      refine ⟨[], ?_⟩
      rw [onMessage_neither w now data hp he]
      simp
    | true =>
      cases hd : data.error with
      | none => simp [hd, truthyOpt] at he
      | some e =>
        have hne : truthy e = true := by simpa [hd, truthyOpt] using he
        exact ⟨_, onMessage_error w now data e hp hd hne⟩

theorem runListeners_world (ls : List Listener) (cs : ChatSocket) (ev : TransportEvent)
    (hs : cs.socket.isSome = true) (hev : ∀ l ∈ ls, l.event = ev.name) (w : World) :
    ∃ (msgs : List Message) (ty : Bool) (cons : List String),
      runListeners ls cs ev w
        = (.ok (), { w with
            messages := w.messages ++ msgs, isTyping := ty,
            emitted := w.emitted ++
              List.replicate (ls.count .onConnect)
                ⟨"join", [("session_id", .str cs.sessionId)]⟩,
            console := w.console ++ cons }) ∧
      (ev.name ≠ "chat_response" → msgs = [] ∧ ty = w.isTyping) := by
  induction ls generalizing w with
  | nil => exact ⟨[], w.isTyping, [], by simp [runListeners, pure, JS.pure], fun _ => ⟨rfl, rfl⟩⟩
  | cons l rest ih =>
    have hl : l.event = ev.name := hev l (List.mem_cons_self _ _)
    have hrest : ∀ l ∈ rest, l.event = ev.name := fun x hx => hev x (List.mem_cons_of_mem _ hx)
    obtain ⟨sock, hsock⟩ := Option.isSome_iff_exists.mp hs
    cases l with
    | onConnect =>
      have h1 : Listener.onConnect.run cs ev w = (.ok (),
          { w with console := w.console ++ ["Connected to chat server"],
                   emitted := w.emitted ++ [⟨"join", [("session_id", .str cs.sessionId)]⟩] }) := by
        simp [Listener.run, hsock, bind, JS.bind, consoleError, socketEmit, modifyWorld]
      obtain ⟨msgs, ty, cons, he, hm⟩ := ih hrest
        { w with console := w.console ++ ["Connected to chat server"],
                 emitted := w.emitted ++ [⟨"join", [("session_id", .str cs.sessionId)]⟩] }
      refine ⟨msgs, ty, "Connected to chat server" :: cons, ?_, hm⟩
      simp only [runListeners, bind, JS.bind, h1, he]
      simp [List.replicate_succ]
    | onDisconnect =>
      have h1 : Listener.onDisconnect.run cs ev w = (.ok (),
          { w with console := w.console ++ ["Disconnected from chat server"] }) := rfl
      obtain ⟨msgs, ty, cons, he, hm⟩ := ih hrest
        { w with console := w.console ++ ["Disconnected from chat server"] }
      refine ⟨msgs, ty, "Disconnected from chat server" :: cons, ?_, hm⟩
      simp only [runListeners, bind, JS.bind, h1, he]
      simp
    | onError =>
      have h1 : ∃ line, Listener.onError.run cs ev w = (.ok (),
          { w with console := w.console ++ [line] }) := by
        cases ev <;> exact ⟨_, rfl⟩
      obtain ⟨line, h1⟩ := h1
      obtain ⟨msgs, ty, cons, he, hm⟩ := ih hrest { w with console := w.console ++ [line] }
      refine ⟨msgs, ty, line :: cons, ?_, hm⟩
      simp only [runListeners, bind, JS.bind, h1, he]
      simp
    | onChatResponse =>
      cases ev with
      | chatResponse data now =>
        obtain ⟨added, h1⟩ := onMessage_world w data now
        have h1' : Listener.onChatResponse.run cs (.chatResponse data now) w = (.ok (),
            { w with messages := w.messages ++ added, isTyping := false }) := h1
        obtain ⟨msgs, ty, cons, he, _⟩ := ih hrest
          { w with messages := w.messages ++ added, isTyping := false }
        refine ⟨added ++ msgs, ty, cons, ?_, fun h => absurd rfl h⟩
        simp only [runListeners, bind, JS.bind, h1', he]
        simp
      | connect => simp [Listener.event, TransportEvent.name] at hl
      | disconnect => simp [Listener.event, TransportEvent.name] at hl
      | error e => simp [Listener.event, TransportEvent.name] at hl


theorem count_onConnect_filter (ls : List Listener) (ev : TransportEvent) :
    (ls.filter fun l => l.event == ev.name).count .onConnect
      = if ev = .connect then ls.count .onConnect else 0 := by
  by_cases hev : ev = .connect
  · subst hev
    rw [if_pos rfl]
    exact List.count_filter (by decide)
  · rw [if_neg hev]
    apply List.count_eq_zero.mpr
    intro hmem
    have hp := (List.mem_filter.mp hmem).2
    cases ev with
    | connect => exact hev rfl
    | disconnect => exact absurd hp (by decide)
    | error e =>
      have hn : (TransportEvent.error e).name = "error" := rfl
      rw [hn] at hp
      exact absurd hp (by decide)
    | chatResponse data now =>
      have hn : (TransportEvent.chatResponse data now).name = "chat_response" := rfl
      rw [hn] at hp
      exact absurd hp (by decide)

theorem dispatch_world (cs : ChatSocket) (ev : TransportEvent) (w : World) :
    ∃ (msgs : List Message) (ty : Bool) (cons : List String),
      cs.dispatch ev w
        = (.ok (), { w with
            messages := w.messages ++ msgs, isTyping := ty,
            emitted := w.emitted ++
              List.replicate
                (match cs.socket with
                 | some s => if ev = .connect then s.listeners.count .onConnect else 0
                 | none => 0)
                ⟨"join", [("session_id", .str cs.sessionId)]⟩,
            console := w.console ++ cons }) ∧
      (ev.name ≠ "chat_response" → msgs = [] ∧ ty = w.isTyping) := by
  cases hs : cs.socket with
  | none =>
    refine ⟨[], w.isTyping, [], ?_, fun _ => ⟨rfl, rfl⟩⟩
    simp [ChatSocket.dispatch, hs, pure, JS.pure]
  | some s =>
    have hsome : cs.socket.isSome = true := by simp [hs]
    have hev : ∀ l ∈ (s.listeners.filter fun l => l.event == ev.name), l.event = ev.name := by
      intro l hl
      simpa using (List.mem_filter.mp hl).2
    obtain ⟨msgs, ty, cons, he, hm⟩ := runListeners_world _ cs ev hsome hev w
    refine ⟨msgs, ty, cons, ?_, hm⟩
    simp only [ChatSocket.dispatch, hs, he, count_onConnect_filter]


theorem sendMessage_emitted (cs : ChatSocket) (message : String) (w : World) :
    ((cs.sendMessage message).exec w).emitted
      = w.emitted ++
        (if cs.isConnected then
          [⟨"chat_message", [("message", .str message), ("session_id", .str cs.sessionId)]⟩]
         else []) := by
  cases h : cs.isConnected <;>
    simp [ChatSocket.sendMessage, h, JS.exec, socketEmit, consoleError, modifyWorld]

theorem clearHistory_emitted (cs : ChatSocket) (w : World) :
    (cs.clearHistory.exec w).emitted
      = w.emitted ++
        (if cs.isConnected then [⟨"clear_history", [("session_id", .str cs.sessionId)]⟩]
         else []) := by
  cases h : cs.isConnected <;>
    simp [ChatSocket.clearHistory, h, JS.exec, socketEmit, modifyWorld, pure, JS.pure]

theorem runListeners_disconnect (ls : List Listener) (cs : ChatSocket) (w : World) :
    runListeners (ls.filter fun l => l.event == TransportEvent.disconnect.name) cs
        .disconnect w
      = (.ok (),
          { w with
              console := w.console ++
                List.replicate (ls.count .onDisconnect) "Disconnected from chat server" }) := by
  induction ls generalizing w with
  | nil => simp [runListeners, pure, JS.pure]
  | cons l rest ih =>
    cases l with
    | onDisconnect =>
      have hf : (Listener.onDisconnect :: rest).filter
            (fun l => l.event == TransportEvent.disconnect.name)
          = .onDisconnect ::
            rest.filter (fun l => l.event == TransportEvent.disconnect.name) :=
        List.filter_cons_of_pos (by decide)
      have h1 : Listener.onDisconnect.run cs .disconnect w = (.ok (),
          { w with console := w.console ++ ["Disconnected from chat server"] }) := rfl
      rw [hf]
      simp only [runListeners, bind, JS.bind, h1, ih]
      simp [List.replicate_succ]
    | onConnect =>
      have hf : (Listener.onConnect :: rest).filter
            (fun l => l.event == TransportEvent.disconnect.name)
          = rest.filter (fun l => l.event == TransportEvent.disconnect.name) :=
        List.filter_cons_of_neg (by decide)
      rw [hf, ih]
      simp
    | onError =>
      have hf : (Listener.onError :: rest).filter
            (fun l => l.event == TransportEvent.disconnect.name)
          = rest.filter (fun l => l.event == TransportEvent.disconnect.name) :=
        List.filter_cons_of_neg (by decide)
      rw [hf, ih]
      simp
    | onChatResponse =>
      have hf : (Listener.onChatResponse :: rest).filter
            (fun l => l.event == TransportEvent.disconnect.name)
          = rest.filter (fun l => l.event == TransportEvent.disconnect.name) :=
        List.filter_cons_of_neg (by decide)
      rw [hf, ih]
      simp

theorem disconnect_some (cs : ChatSocket) (s : Socket) (w : World) (h : cs.socket = some s) :
    cs.disconnect w
      = (.ok { cs with socket := none },
          { w with
              emitted := w.emitted ++ [⟨"leave", [("session_id", .str cs.sessionId)]⟩],
              socketDisconnects := w.socketDisconnects ++ [w.emitted.length + 1],
              console := w.console ++
                List.replicate (if s.connected then s.listeners.count .onDisconnect else 0)
                  "Disconnected from chat server" }) := by
  cases hc : s.connected with
  | false =>
    simp [ChatSocket.disconnect, h, bind, JS.bind, pure, JS.pure, socketEmit,
      socketDisconnect, modifyWorld, ChatSocket.isConnected, hc]
  | true =>
    have hd := runListeners_disconnect s.listeners
      { socket := some { connected := false, listeners := s.listeners },
        sessionId := cs.sessionId }
    simp [ChatSocket.disconnect, h, bind, JS.bind, pure, JS.pure, socketEmit,
      socketDisconnect, modifyWorld, ChatSocket.isConnected, hc, ChatSocket.dispatch,
      ChatSocket.afterEvent, hd]

theorem disconnect_none (cs : ChatSocket) (w : World) (h : cs.socket = none) :
    cs.disconnect w = (.ok cs, w) := by
  simp [ChatSocket.disconnect, h, pure, JS.pure]

theorem afterEvent_sessionId (cs : ChatSocket) (ev : TransportEvent) :
    (cs.afterEvent ev).sessionId = cs.sessionId := by
  unfold ChatSocket.afterEvent
  cases cs.socket <;> cases ev <;> rfl

theorem afterEvent_listeners (cs : ChatSocket) (ev : TransportEvent) :
    (cs.afterEvent ev).socket.map (fun s => s.listeners)
      = cs.socket.map (fun s => s.listeners) := by
  unfold ChatSocket.afterEvent
  cases h : cs.socket <;> cases ev <;> simp [h]

/-- What an operation other than `connect` does: the session id is kept, and what is
emitted carries it. -/
theorem apply_keeps_sessionId (op : SocketOp) (cs : ChatSocket) (w : World)
    (hop : op.isConnect = false) :
    (op.apply cs w).1.sessionId = cs.sessionId ∧
    ∃ added : List Emission,
      (op.apply cs w).2.emitted = w.emitted ++ added ∧
      ∀ e ∈ added,
        e.event ∈ ["join", "chat_message", "clear_history", "leave"] ∧
        e.sessionId = some (.str cs.sessionId) := by
  cases op with
  | connect sid => simp [SocketOp.isConnect] at hop
  | sendMessage message =>
    refine ⟨rfl, _, sendMessage_emitted cs message w, ?_⟩
    intro e he
    split at he
    · simp only [List.mem_singleton] at he
      subst he
      exact ⟨by simp, by simp [Emission.sessionId, List.lookup]⟩
    · simp at he
  | onMessage =>
    refine ⟨?_, [], by simp [SocketOp.apply], by simp⟩
    simp only [SocketOp.apply, ChatSocket.onMessage]
    cases cs.socket <;> rfl
  | clearHistory =>
    refine ⟨rfl, _, clearHistory_emitted cs w, ?_⟩
    intro e he
    split at he
    · simp only [List.mem_singleton] at he
      subst he
      exact ⟨by simp, by simp [Emission.sessionId, List.lookup]⟩
    · simp at he
  | disconnect =>
    cases hs : cs.socket with
    | none =>
      refine ⟨?_, [], ?_, by simp⟩ <;> simp [SocketOp.apply, disconnect_none cs w hs]
    | some s =>
      refine ⟨?_, [⟨"leave", [("session_id", .str cs.sessionId)]⟩], ?_, ?_⟩
      · simp [SocketOp.apply, disconnect_some cs s w hs]
      · simp [SocketOp.apply, disconnect_some cs s w hs]
      · intro e he
        simp only [List.mem_singleton] at he
        subst he
        exact ⟨by simp, by simp [Emission.sessionId, List.lookup]⟩
  | event ev =>
    obtain ⟨msgs, ty, cons, he, _⟩ := dispatch_world (cs.afterEvent ev) ev w
    refine ⟨afterEvent_sessionId cs ev,
      List.replicate
        (match (cs.afterEvent ev).socket with
         | some s => if ev = .connect then s.listeners.count .onConnect else 0
         | none => 0)
        ⟨"join", [("session_id", .str (cs.afterEvent ev).sessionId)]⟩, ?_, ?_⟩
    · simp only [SocketOp.apply, JS.exec, he]
    · intro e hmem
      have := List.eq_of_mem_replicate hmem
      subst this
      exact ⟨by simp, by simp [Emission.sessionId, List.lookup, afterEvent_sessionId]⟩

theorem runOps_keeps_sessionId (ops : List SocketOp) (cs : ChatSocket) (w : World)
    (hops : ∀ op ∈ ops, op.isConnect = false) :
    (runOps ops cs w).1.sessionId = cs.sessionId ∧
    ∃ added : List Emission,
      (runOps ops cs w).2.emitted = w.emitted ++ added ∧
      ∀ e ∈ added,
        e.event ∈ ["join", "chat_message", "clear_history", "leave"] ∧
        e.sessionId = some (.str cs.sessionId) := by
  induction ops generalizing cs w with
  | nil => exact ⟨rfl, [], by simp [runOps], by simp⟩
  | cons op rest ih =>
    obtain ⟨h1, a1, he1, hp1⟩ :=
      apply_keeps_sessionId op cs w (hops op (List.mem_cons_self _ _))
    obtain ⟨h2, a2, he2, hp2⟩ := ih (op.apply cs w).1 (op.apply cs w).2
      (fun o ho => hops o (List.mem_cons_of_mem _ ho))
    refine ⟨by rw [runOps, h2, h1], a1 ++ a2, ?_, ?_⟩
    · rw [runOps, he2, he1, List.append_assoc]
    · intro e he
      rcases List.mem_append.mp he with h | h
      · exact hp1 e h
      · rw [← h1]; exact hp2 e h


theorem afterEvent_socket (cs : ChatSocket) (ev : TransportEvent) (s : Socket)
    (h : cs.socket = some s) :
    ∃ s1, (cs.afterEvent ev).socket = some s1 ∧ s1.listeners = s.listeners := by
  unfold ChatSocket.afterEvent
  cases ev <;> simp [h]

/-- What an operation other than `connect` and `disconnect` does on a `ChatSocket` whose
socket has one `connect` listener: that stays so, and a `join` is emitted exactly by a
`connect` event. -/
theorem apply_joins (op : SocketOp) (cs : ChatSocket) (w : World) (s : Socket)
    (hs : cs.socket = some s) (hc : s.listeners.count .onConnect = 1)
    (hop : op ≠ .disconnect ∧ op.isConnect = false) :
    (op.apply cs w).1.sessionId = cs.sessionId ∧
    (∃ s1, (op.apply cs w).1.socket = some s1 ∧ s1.listeners.count .onConnect = 1) ∧
    ∃ added : List Emission,
      (op.apply cs w).2.emitted = w.emitted ++ added ∧
      added.filter (fun e => e.event == "join")
        = List.replicate ([op].count (.event .connect))
            ⟨"join", [("session_id", .str cs.sessionId)]⟩ := by
  cases op with
  | connect sid => simp [SocketOp.isConnect] at hop
  | disconnect => exact absurd rfl hop.1
  | sendMessage message =>
    refine ⟨rfl, ⟨s, hs, hc⟩, _, sendMessage_emitted cs message w, ?_⟩
    split <;> simp [List.count_cons]
  | clearHistory =>
    refine ⟨rfl, ⟨s, hs, hc⟩, _, clearHistory_emitted cs w, ?_⟩
    split <;> simp [List.count_cons]
  | onMessage =>
    refine ⟨?_, ⟨{ s with listeners := s.listeners ++ [.onChatResponse] }, ?_, ?_⟩, [], ?_, ?_⟩
    · simp [SocketOp.apply, ChatSocket.onMessage, hs]
    · simp [SocketOp.apply, ChatSocket.onMessage, hs]
    · simp [List.count_append, hc, List.count_cons]
    · simp [SocketOp.apply]
    · simp [List.count_cons]
  | event ev =>
    obtain ⟨s1, hs1, hl1⟩ := afterEvent_socket cs ev s hs
    obtain ⟨msgs, ty, cons, he, _⟩ := dispatch_world (cs.afterEvent ev) ev w
    rw [hs1] at he
    simp only [hl1, hc, afterEvent_sessionId] at he
    refine ⟨afterEvent_sessionId cs ev, ⟨s1, hs1, by rw [hl1, hc]⟩,
      List.replicate (if ev = .connect then 1 else 0)
        ⟨"join", [("session_id", .str cs.sessionId)]⟩, ?_, ?_⟩
    · simp only [SocketOp.apply, JS.exec, he]
    · by_cases hev : ev = .connect
      · subst hev
        simp [List.count_cons]
      · have hne : (SocketOp.event ev == SocketOp.event .connect) = false := by
          simpa using hev
        simp [hev, List.count_cons, hne]

theorem runOps_joins (ops : List SocketOp) (cs : ChatSocket) (w : World) (s : Socket)
    (hs : cs.socket = some s) (hc : s.listeners.count .onConnect = 1)
    (hops : ∀ op ∈ ops, op ≠ .disconnect ∧ op.isConnect = false) :
    ∃ added : List Emission,
      (runOps ops cs w).2.emitted = w.emitted ++ added ∧
      added.filter (fun e => e.event == "join")
        = List.replicate (ops.count (.event .connect))
            ⟨"join", [("session_id", .str cs.sessionId)]⟩ := by
  induction ops generalizing cs w s with
  | nil => exact ⟨[], by simp [runOps], by simp⟩
  | cons op rest ih =>
    obtain ⟨h1, ⟨s1, hs1, hc1⟩, a1, he1, hj1⟩ :=
      apply_joins op cs w s hs hc (hops op (List.mem_cons_self _ _))
    obtain ⟨a2, he2, hj2⟩ := ih (op.apply cs w).1 (op.apply cs w).2 s1 hs1 hc1
      (fun o ho => hops o (List.mem_cons_of_mem _ ho))
    refine ⟨a1 ++ a2, ?_, ?_⟩
    · rw [runOps, he2, he1, List.append_assoc]
    · rw [List.filter_append, hj1, hj2, h1, ← List.replicate_add]
      congr 1
      rw [show op :: rest = [op] ++ rest from rfl, List.count_append]

/-- C12: for every session id, after `connect` each `connect` event of the transport
emits exactly one `join` whose payload is the session id passed to `connect` (the
literal `default` when none is passed), and completes normally; and over any sequence
of operations on the connection (sends, `onMessage`, `clearHistory`, and transport
events of any kind) the `join` emissions are as many as the `connect` events, so none
is emitted before a `connect` event. -/
theorem C12_join_on_connect (base : ChatSocket) (sid : Option String) (w : World)
    (ops : List SocketOp)
    (hops : ∀ op ∈ ops, op ≠ .disconnect ∧ op.isConnect = false) :
    (((base.connect sid).dispatch .connect).exec w).emitted
      = w.emitted ++ [⟨"join", [("session_id", .str (sessionIdOrDefault sid))]⟩] ∧
    ((base.connect sid).dispatch .connect).completion w = .ok () ∧
    ∃ added : List Emission,
      (runOps ops (base.connect sid) w).2.emitted = w.emitted ++ added ∧
      added.filter (fun e => e.event == "join")
        = List.replicate (ops.count (.event .connect))
            ⟨"join", [("session_id", .str (sessionIdOrDefault sid))]⟩ := by
  refine ⟨rfl, rfl, ?_⟩
  exact runOps_joins ops (base.connect sid) w
    { connected := false, listeners := [.onConnect, .onDisconnect, .onError] } rfl
    (by decide) hops

/-- C12 (witness): on the session `room1`, two `connect` events among other operations
give two `join` emissions, and a `chat_response` before any `connect` event gives
none. -/
theorem C12_join_on_connect_witness :
    (∀ op ∈ [SocketOp.onMessage, .event (.chatResponse ⟨false, none, none⟩ "t0"),
        .event .connect, .sendMessage "hi", .event .disconnect, .event .connect],
      op ≠ .disconnect ∧ op.isConnect = false) ∧
    (runOps [SocketOp.onMessage, .event (.chatResponse ⟨false, none, none⟩ "t0")]
      (ChatSocket.new.connect (some "room1")) initialWorld).2.emitted = [] ∧
    ∃ added : List Emission,
      (runOps [SocketOp.onMessage, .event (.chatResponse ⟨false, none, none⟩ "t0"),
          .event .connect, .sendMessage "hi", .event .disconnect, .event .connect]
        (ChatSocket.new.connect (some "room1")) initialWorld).2.emitted
        = initialWorld.emitted ++ added ∧
      added.filter (fun e => e.event == "join")
        = List.replicate 2 ⟨"join", [("session_id", .str "room1")]⟩ :=
  ⟨by decide, by decide,
    (C12_join_on_connect ChatSocket.new (some "room1") initialWorld
      [SocketOp.onMessage, .event (.chatResponse ⟨false, none, none⟩ "t0"),
        .event .connect, .sendMessage "hi", .event .disconnect, .event .connect]
      (by decide)).2.2⟩


theorem transportEvent_some (ev : TransportEvent) (w : World) (cs : ChatSocket)
    (h : w.chatSocketRef = some cs) :
    transportEvent ev w
      = (cs.afterEvent ev).dispatch ev { w with chatSocketRef := some (cs.afterEvent ev) } := by
  simp [transportEvent, h, bind, JS.bind, getWorld, modifyWorld]

theorem transportEvent_none (ev : TransportEvent) (w : World) (h : w.chatSocketRef = none) :
    transportEvent ev w = (.ok (), w) := by
  simp [transportEvent, h, bind, JS.bind, getWorld, pure, JS.pure]

theorem dispatch_log_only (cs : ChatSocket) (w : World) (ev : TransportEvent)
    (hev : ev = .disconnect ∨ ∃ e, ev = .error e) :
    ∃ cons : List String,
      cs.dispatch ev w = (.ok (), { w with console := w.console ++ cons }) := by
  obtain ⟨msgs, ty, cons, he, hm⟩ := dispatch_world cs ev w
  have hname : ev.name ≠ "chat_response" := by
    rcases hev with h | ⟨e, h⟩ <;> subst h <;> simp [TransportEvent.name]
  have hne : ev ≠ .connect := by
    rcases hev with h | ⟨e, h⟩ <;> subst h <;> simp
  obtain ⟨hmsgs, hty⟩ := hm hname
  refine ⟨cons, ?_⟩
  rw [he, hmsgs, hty]
  cases cs.socket <;> simp [hne]

/-- C13: on a `ChatSocket` holding a socket, `disconnect` completes normally, emits
exactly one `leave` whose payload is the current session id, then calls
`socket.disconnect()` (after that emission), and leaves the `socket` field `null`. When
the socket was connected, `socket.disconnect()` delivers `disconnect` to the listeners,
each of which logs one console line; nothing else changes (the store, the requests and
the session id are kept, and nothing more is emitted). On a `ChatSocket` holding no
socket it emits nothing and changes nothing. -/
theorem C13_disconnect (self : ChatSocket) (w : World) :
    (∀ s, self.socket = some s →
      self.disconnect w
        = (.ok { self with socket := none },
            { w with
                emitted := w.emitted ++ [⟨"leave", [("session_id", .str self.sessionId)]⟩],
                socketDisconnects := w.socketDisconnects ++ [w.emitted.length + 1],
                console := w.console ++
                  List.replicate
                    (if s.connected then s.listeners.count .onDisconnect else 0)
                    "Disconnected from chat server" })) ∧
    (self.socket = none → self.disconnect w = (.ok self, w)) :=
  ⟨fun s h => disconnect_some self s w h, disconnect_none self w⟩

/-- C13 (witness): the connected socket of the examples emits one `leave` for `default`,
logs the line of its `disconnect` listener, and ends with no socket; a socket that never
connected emits its `leave` and logs nothing; a second `disconnect`, and a `disconnect`
on a fresh `ChatSocket`, change nothing. -/
theorem C13_disconnect_witness :
    (∃ s, connectedSocket.socket = some s) ∧
    connectedSocket.disconnect initialWorld
      = (.ok { connectedSocket with socket := none },
          { initialWorld with
              emitted := [⟨"leave", [("session_id", .str "default")]⟩],
              socketDisconnects := [1],
              console := ["Disconnected from chat server"] }) ∧
    (ChatSocket.new.connect (some "room1")).disconnect initialWorld
      = (.ok { ChatSocket.new.connect (some "room1") with socket := none },
          { initialWorld with
              emitted := [⟨"leave", [("session_id", .str "room1")]⟩],
              socketDisconnects := [1] }) ∧
    ChatSocket.new.socket = none ∧
    ChatSocket.new.disconnect initialWorld = (.ok ChatSocket.new, initialWorld) ∧
    ({ connectedSocket with socket := none } : ChatSocket).disconnect twoMessageWorld
      = (.ok { connectedSocket with socket := none }, twoMessageWorld) :=
  ⟨⟨_, rfl⟩,
    (C13_disconnect connectedSocket initialWorld).1 _ rfl,
    (C13_disconnect (ChatSocket.new.connect (some "room1")) initialWorld).1 _ rfl,
    rfl,
    (C13_disconnect ChatSocket.new initialWorld).2 rfl,
    (C13_disconnect { connectedSocket with socket := none } twoMessageWorld).2 rfl⟩

/-- C14 (counterexample): on a connection opened with `connect("a")`, a second
`connect("b")` with no `disconnect` in between (no `leave` emitted, `socket.disconnect()`
never called) changes the session id to `b`, and the next `join` carries `b`. -/
theorem C14_counterexample :
    (ChatSocket.new.connect (some "a")).sessionId = "a" ∧
    (runOps [.event .connect, .connect (some "b"), .event .connect]
      (ChatSocket.new.connect (some "a")) initialWorld).1.sessionId = "b" ∧
    (runOps [.event .connect, .connect (some "b"), .event .connect]
      (ChatSocket.new.connect (some "a")) initialWorld).2.emitted
      = [⟨"join", [("session_id", .str "a")]⟩, ⟨"join", [("session_id", .str "b")]⟩] ∧
    (runOps [.event .connect, .connect (some "b"), .event .connect]
      (ChatSocket.new.connect (some "a")) initialWorld).2.socketDisconnects = [] := by
  refine ⟨by decide, by decide, by decide, by decide⟩

/-- C14 (as amended): the session id held by a `ChatSocket` is changed by `connect`
only. After `connect(s)`, over any sequence of the other operations (`sendMessage`,
`onMessage`, `clearHistory`, `disconnect`, and transport events of any kind) the session
id stays `s`, and everything emitted is a `join`, `chat_message`, `clear_history` or
`leave` that carries `session_id = s`. -/
theorem C14_session_id_fixed (base : ChatSocket) (sid : Option String) (w : World)
    (ops : List SocketOp) (hops : ∀ op ∈ ops, op.isConnect = false) :
    (base.connect sid).sessionId = sessionIdOrDefault sid ∧
    (runOps ops (base.connect sid) w).1.sessionId = sessionIdOrDefault sid ∧
    ∃ added : List Emission,
      (runOps ops (base.connect sid) w).2.emitted = w.emitted ++ added ∧
      ∀ e ∈ added,
        e.event ∈ ["join", "chat_message", "clear_history", "leave"] ∧
        e.sessionId = some (.str (sessionIdOrDefault sid)) :=
  ⟨rfl, runOps_keeps_sessionId ops (base.connect sid) w hops⟩

/-- C14 (witness): on the session `room1`, a connection that joins, sends, clears and
leaves emits the four events, each with `room1`. -/
theorem C14_session_id_fixed_witness :
    (∀ op ∈ [SocketOp.event .connect, .onMessage, .sendMessage "hi", .clearHistory,
        .event (.error "timeout"), .disconnect, .sendMessage "late"],
      op.isConnect = false) ∧
    (runOps [SocketOp.event .connect, .onMessage, .sendMessage "hi", .clearHistory,
        .event (.error "timeout"), .disconnect, .sendMessage "late"]
      (ChatSocket.new.connect (some "room1")) initialWorld).2.emitted
      = [⟨"join", [("session_id", .str "room1")]⟩,
         ⟨"chat_message", [("message", .str "hi"), ("session_id", .str "room1")]⟩,
         ⟨"clear_history", [("session_id", .str "room1")]⟩,
         ⟨"leave", [("session_id", .str "room1")]⟩] ∧
    (runOps [SocketOp.event .connect, .onMessage, .sendMessage "hi", .clearHistory,
        .event (.error "timeout"), .disconnect, .sendMessage "late"]
      (ChatSocket.new.connect (some "room1")) initialWorld).1.sessionId
      = sessionIdOrDefault (some "room1") :=
  ⟨by decide, by decide,
    (C14_session_id_fixed ChatSocket.new (some "room1") initialWorld
      [SocketOp.event .connect, .onMessage, .sendMessage "hi", .clearHistory,
        .event (.error "timeout"), .disconnect, .sendMessage "late"] (by decide)).2.1⟩

/-- C17: a `disconnect` or `error` event of the transport is log-only. The listeners
complete normally and change nothing but the console: the message store, `isTyping`, the
emissions, the requests and `chatSocketRef` are as before. The `ChatSocket` keeps its
session id and keeps holding its socket with the same listeners (the `connected`
property of the socket itself is maintained by the socket.io client). On the widget the
event leaves the store and `isTyping` unchanged. -/
theorem C17_transport_log_only (cs : ChatSocket) (w : World) (ev : TransportEvent)
    (hev : ev = .disconnect ∨ ∃ e, ev = .error e) :
    (∃ cons : List String,
      cs.dispatch ev w = (.ok (), { w with console := w.console ++ cons })) ∧
    ((cs.dispatch ev).exec w).messages = w.messages ∧
    ((cs.dispatch ev).exec w).chatSocketRef = w.chatSocketRef ∧
    (cs.afterEvent ev).sessionId = cs.sessionId ∧
    (cs.afterEvent ev).socket.isSome = cs.socket.isSome ∧
    (cs.afterEvent ev).socket.map (fun s => s.listeners)
      = cs.socket.map (fun s => s.listeners) ∧
    ((transportEvent ev).exec w).messages = w.messages ∧
    ((transportEvent ev).exec w).isTyping = w.isTyping ∧
    ((transportEvent ev).exec w).chatSocketRef.map (fun c => c.sessionId)
      = w.chatSocketRef.map (fun c => c.sessionId) := by
  obtain ⟨cons, hd⟩ := dispatch_log_only cs w ev hev
  have hl := afterEvent_listeners cs ev
  refine ⟨⟨cons, hd⟩, by rw [JS.exec, hd], by rw [JS.exec, hd], afterEvent_sessionId cs ev,
    ?_, hl, ?_⟩
  · have := congrArg Option.isSome hl
    simpa using this
  · cases hr : w.chatSocketRef with
    | none =>
      rw [JS.exec, transportEvent_none ev w hr]
      simp [hr]
    | some c =>
      obtain ⟨cons2, hd2⟩ := dispatch_log_only (c.afterEvent ev)
        { w with chatSocketRef := some (c.afterEvent ev) } ev hev
      rw [JS.exec, transportEvent_some ev w c hr, hd2]
      simp [afterEvent_sessionId]

/-- C17 (witness): on the mounted widget holding two messages, a `disconnect` event and
an `error` event leave the store as it is. -/
theorem C17_transport_log_only_witness :
    (TransportEvent.disconnect = .disconnect ∨ ∃ e, TransportEvent.disconnect = .error e) ∧
    ((transportEvent .disconnect).exec twoMessageWorld).messages
      = twoMessageWorld.messages ∧
    ((TransportEvent.error "timeout") = .disconnect ∨
      ∃ e, (TransportEvent.error "timeout") = .error e) ∧
    ((transportEvent (.error "timeout")).exec twoMessageWorld).messages
      = twoMessageWorld.messages :=
  ⟨Or.inl rfl,
    (C17_transport_log_only connectedSocket twoMessageWorld .disconnect
      (Or.inl rfl)).2.2.2.2.2.2.1,
    Or.inr ⟨_, rfl⟩,
    (C17_transport_log_only connectedSocket twoMessageWorld (.error "timeout")
      (Or.inr ⟨_, rfl⟩)).2.2.2.2.2.2.1⟩


/-! ## Session events: which session the requests and emissions address -/

theorem resume_frame (w : World) (settled : Except JSError (AxiosResponse ChatResponse))
    (now : String) :
    ((handleSendMessage_resume settled now).exec w).chatSocketRef = w.chatSocketRef ∧
    ((handleSendMessage_resume settled now).exec w).requests = w.requests ∧
    ((handleSendMessage_resume settled now).exec w).emitted = w.emitted := by
  cases settled with
  | error e => exact ⟨rfl, rfl, rfl⟩
  | ok response =>
    obtain ⟨data⟩ := response
    cases hp : data.hasPayload with
    | false =>
      rw [JS.exec, handleSendMessage_resume_nopayload w now data hp]
      exact ⟨rfl, rfl, rfl⟩
    | true =>
      have hs : data.success = true := by
        simp [ChatResponse.hasPayload] at hp; exact hp.1
      have hr : data.response.isSome = true := by
        simp [ChatResponse.hasPayload] at hp; exact hp.2
      obtain ⟨p, hp2⟩ := Option.isSome_iff_exists.mp hr
      rw [JS.exec, handleSendMessage_resume_payload w now data p hs hp2]
      exact ⟨rfl, rfl, rfl⟩

theorem loadHistory_resume_frame (w : World)
    (settled : Except JSError (AxiosResponse HistoryResponse)) :
    ((loadHistory_resume settled).exec w).chatSocketRef = w.chatSocketRef ∧
    ((loadHistory_resume settled).exec w).requests = w.requests ∧
    ((loadHistory_resume settled).exec w).emitted = w.emitted := by
  cases settled with
  | error e => exact ⟨rfl, rfl, rfl⟩
  | ok response =>
    obtain ⟨⟨s, hist⟩⟩ := response
    cases s <;> exact ⟨rfl, rfl, rfl⟩

theorem clear_resume_frame (w : World) (settled : Except JSError (AxiosResponse Unit))
    (now : String) :
    ((handleClearHistory_resume settled now).exec w).chatSocketRef = w.chatSocketRef ∧
    ((handleClearHistory_resume settled now).exec w).requests = w.requests ∧
    ((handleClearHistory_resume settled now).exec w).emitted = w.emitted := by
  cases settled <;> exact ⟨rfl, rfl, rfl⟩

theorem unmountEffect_some (w : World) (cs : ChatSocket) (h : w.chatSocketRef = some cs) :
    unmountEffect.exec w
      = { (cs.disconnect w).2 with
          chatSocketRef := some { cs with socket := none } } := by
  cases hs : cs.socket with
  | none =>
    have hcs : ({ cs with socket := none } : ChatSocket) = cs := by
      cases cs; simp_all
    simp [unmountEffect, JS.exec, h, bind, JS.bind, getWorld, modifyWorld,
      disconnect_none cs w hs, hcs]
  | some s =>
    simp [unmountEffect, JS.exec, h, bind, JS.bind, getWorld, modifyWorld,
      disconnect_some cs s w hs]

/-- What a session event adds: the stored session id is kept, every request issued
addresses `default`, and every emission carries the session id of the stored
`ChatSocket`. -/
theorem session_step (e : SessionEvent) (w : World) :
    (e.handler.exec w).chatSocketRef.map (fun c => c.sessionId)
      = w.chatSocketRef.map (fun c => c.sessionId) ∧
    ∃ (reqs : List RestRequest) (ems : List Emission),
      (e.handler.exec w).requests = w.requests ++ reqs ∧
      (e.handler.exec w).emitted = w.emitted ++ ems ∧
      (∀ r ∈ reqs, r.sessionId = some (.str "default")) ∧
      (∀ x ∈ ems, ∃ cs, w.chatSocketRef = some cs ∧
        x.sessionId = some (.str cs.sessionId)) := by
  have frame : ∀ x : JS Unit,
      (x.exec w).chatSocketRef = w.chatSocketRef ∧ (x.exec w).requests = w.requests ∧
        (x.exec w).emitted = w.emitted →
      (x.exec w).chatSocketRef.map (fun c => c.sessionId)
        = w.chatSocketRef.map (fun c => c.sessionId) ∧
      ∃ (reqs : List RestRequest) (ems : List Emission),
        (x.exec w).requests = w.requests ++ reqs ∧
        (x.exec w).emitted = w.emitted ++ ems ∧
        (∀ r ∈ reqs, r.sessionId = some (.str "default")) ∧
        (∀ y ∈ ems, ∃ cs, w.chatSocketRef = some cs ∧
          y.sessionId = some (.str cs.sessionId)) := by
    rintro x ⟨h1, h2, h3⟩
    exact ⟨by rw [h1], [], [], by simp [h2], by simp [h3], by simp, by simp⟩
  cases e with
  | widget e =>
    cases e with
    | input value => exact frame _ ⟨rfl, rfl, rfl⟩
    | chatResponse data now =>
      obtain ⟨added, he⟩ := onMessage_world w data now
      apply frame
      simp only [SessionEvent.handler, WidgetEvent.handler]
      rw [JS.exec, he]
      exact ⟨rfl, rfl, rfl⟩
    | fallbackResolved response now => exact frame _ (resume_frame w (.ok response) now)
    | fallbackRejected error now => exact frame _ (resume_frame w (.error error) now)
    | send now =>
      cases ht : truthy (trim w.inputMessage) with
      | false =>
        apply frame
        simp only [SessionEvent.handler, WidgetEvent.handler]
        rw [JS.exec, handleSendMessage_blank w now ht]
        exact ⟨rfl, rfl, rfl⟩
      | true =>
        cases hc : socketConnected w with
        | false =>
          simp only [SessionEvent.handler, WidgetEvent.handler]
          rw [JS.exec, handleSendMessage_fallback w now ht hc]
          refine ⟨rfl, [_], [], rfl, by simp, ?_, by simp⟩
          intro r hr
          simp only [List.mem_singleton] at hr
          subst hr
          simp [RestRequest.sessionId, List.lookup]
        | true =>
          obtain ⟨cs, hr, hcs⟩ := (socketConnected_iff w).mp hc
          simp only [SessionEvent.handler, WidgetEvent.handler]
          rw [JS.exec, handleSendMessage_socket w now cs ht hr hcs]
          refine ⟨rfl, [], [_], by simp, rfl, by simp, ?_⟩
          intro x hx
          simp only [List.mem_singleton] at hx
          subst hx
          exact ⟨cs, hr, by simp [Emission.sessionId, List.lookup]⟩
  | transport ev =>
    cases hr : w.chatSocketRef with
    | none =>
      have := frame (transportEvent ev)
        (by rw [JS.exec, transportEvent_none ev w hr]; exact ⟨rfl, rfl, rfl⟩)
      simpa [SessionEvent.handler, hr] using this
    | some cs =>
      obtain ⟨msgs, ty, cons, he, _⟩ := dispatch_world (cs.afterEvent ev) ev
        { w with chatSocketRef := some (cs.afterEvent ev) }
      simp only [SessionEvent.handler, JS.exec, transportEvent_some ev w cs hr, he]
      refine ⟨by simp [afterEvent_sessionId], [], _, by simp, rfl, by simp, ?_⟩
      intro x hx
      have := List.eq_of_mem_replicate hx
      subst this
      exact ⟨cs, rfl, by simp [Emission.sessionId, List.lookup, afterEvent_sessionId]⟩
  | clear confirmed =>
    cases confirmed with
    | false => exact frame _ ⟨rfl, rfl, rfl⟩
    | true =>
      refine ⟨rfl, [⟨"POST", "/chat/clear", [("session_id", .str "default")]⟩], [], rfl,
        by simp [SessionEvent.handler]; rfl, ?_, by simp⟩
      intro r hr
      simp only [List.mem_singleton] at hr
      subst hr
      simp [RestRequest.sessionId, List.lookup]
  | clearSettled settled now => exact frame _ (clear_resume_frame w settled now)
  | historySettled settled => exact frame _ (loadHistory_resume_frame w settled)
  | unmount =>
    cases hr : w.chatSocketRef with
    | none =>
      have := frame unmountEffect (by
        simp [unmountEffect, JS.exec, hr, bind, JS.bind, getWorld, pure, JS.pure])
      simpa [SessionEvent.handler, hr] using this
    | some cs =>
      simp only [SessionEvent.handler, unmountEffect_some w cs hr]
      cases hs : cs.socket with
      | none =>
        rw [disconnect_none cs w hs]
        exact ⟨by simp, [], [], by simp, by simp, by simp, by simp⟩
      | some s =>
        rw [disconnect_some cs s w hs]
        refine ⟨by simp, [], [_], by simp, rfl, by simp, ?_⟩
        intro x hx
        simp only [List.mem_singleton] at hx
        subst hx
        exact ⟨cs, rfl, by simp [Emission.sessionId, List.lookup]⟩

theorem runSession_default (es : List SessionEvent) (w : World)
    (href : ∀ cs, w.chatSocketRef = some cs → cs.sessionId = "default")
    (hreq : ∀ r ∈ w.requests, r.sessionId = some (.str "default"))
    (hem : ∀ x ∈ w.emitted, x.sessionId = some (.str "default")) :
    (∀ r ∈ (runSession es w).requests, r.sessionId = some (.str "default")) ∧
    (∀ x ∈ (runSession es w).emitted, x.sessionId = some (.str "default")) := by
  induction es generalizing w with
  | nil => exact ⟨hreq, hem⟩
  | cons e rest ih =>
    have hrun : runSession (e :: rest) w = runSession rest (e.handler.exec w) := rfl
    rw [hrun]
    obtain ⟨hsid, reqs, ems, h1, h2, h3, h4⟩ := session_step e w
    apply ih
    · intro cs hcs
      rw [hcs] at hsid
      cases hw : w.chatSocketRef with
      | none => simp [hw] at hsid
      | some c =>
        rw [hw] at hsid
        simp only [Option.map_some', Option.some.injEq] at hsid
        rw [hsid]
        exact href c hw
    · intro r hr
      rw [h1] at hr
      rcases List.mem_append.mp hr with h | h
      · exact hreq r h
      · exact h3 r h
    · intro x hx
      rw [h2] at hx
      rcases List.mem_append.mp hx with h | h
      · exact hem x h
      · obtain ⟨cs, hcs, hsx⟩ := h4 x h
        rw [hsx, href cs hcs]


/-- C15: for every input text `t` that is non-empty after trimming, the send appends a
user message whose content is `t` and clears the input; when the socket is connected it
emits a `chat_message` whose payload is exactly `message = t` and the session id of the
socket, otherwise it posts to `/chat/message` a body that is exactly `message = t` and
the session id `default`. The text is the one entered, neither trimmed nor the cleared
input. -/
theorem C15_request_payload (w : World) (now : String) (h : trim w.inputMessage ≠ "") :
    ((handleSendMessage now).exec w).messages
      = w.messages ++ [⟨"user", w.inputMessage, now, "text"⟩] ∧
    ((handleSendMessage now).exec w).inputMessage = "" ∧
    (socketConnected w = true →
      ∃ cs, w.chatSocketRef = some cs ∧
        ((handleSendMessage now).exec w).emitted
          = w.emitted ++ [⟨"chat_message",
              [("message", .str w.inputMessage), ("session_id", .str cs.sessionId)]⟩]) ∧
    (socketConnected w = false →
      ((handleSendMessage now).exec w).requests
        = w.requests ++ [⟨"POST", "/chat/message",
            [("message", .str w.inputMessage), ("session_id", .str "default")]⟩]) := by
  have ht : truthy (trim w.inputMessage) = true := (truthy_eq_true_iff _).mpr h
  refine ⟨(send_accepted_store w now ht).2.1, ?_, ?_, ?_⟩
  · cases hc : socketConnected w with
    | false => rw [JS.exec, handleSendMessage_fallback w now ht hc]
    | true =>
      obtain ⟨cs, hr, hcs⟩ := (socketConnected_iff w).mp hc
      rw [JS.exec, handleSendMessage_socket w now cs ht hr hcs]
  · intro hc
    obtain ⟨cs, hr, hcs⟩ := (socketConnected_iff w).mp hc
    exact ⟨cs, hr, by rw [JS.exec, handleSendMessage_socket w now cs ht hr hcs]⟩
  · intro hc
    rw [JS.exec, handleSendMessage_fallback w now ht hc]

/-- C15 (witness): the text `  hi there ` (with blanks around it) is sent as entered on
both channels, and is the content of the user message. -/
theorem C15_request_payload_witness :
    trim ({ connectedWorld with inputMessage := "  hi there " } : World).inputMessage ≠ "" ∧
    ((handleSendMessage "t1").exec
      { connectedWorld with inputMessage := "  hi there " }).messages
      = [⟨"user", "  hi there ", "t1", "text"⟩] ∧
    (∃ cs, ({ connectedWorld with inputMessage := "  hi there " } : World).chatSocketRef
        = some cs ∧
      ((handleSendMessage "t1").exec
        { connectedWorld with inputMessage := "  hi there " }).emitted
        = ({ connectedWorld with inputMessage := "  hi there " } : World).emitted ++
          [⟨"chat_message",
            [("message", .str "  hi there "), ("session_id", .str cs.sessionId)]⟩]) ∧
    ((handleSendMessage "t1").exec
      { disconnectedWorld with inputMessage := "  hi there " }).requests
      = ({ disconnectedWorld with inputMessage := "  hi there " } : World).requests ++
          [⟨"POST", "/chat/message",
            [("message", .str "  hi there "), ("session_id", .str "default")]⟩] :=
  ⟨by decide,
    (C15_request_payload { connectedWorld with inputMessage := "  hi there " } "t1"
      (by decide)).1,
    (C15_request_payload { connectedWorld with inputMessage := "  hi there " } "t1"
      (by decide)).2.2.1 (by decide),
    (C15_request_payload { disconnectedWorld with inputMessage := "  hi there " } "t1"
      (by decide)).2.2.2 (by decide)⟩

/-- C16 (counterexample): with the limit `0` supplied, `chatAPI.getHistory` sends a
query with `session_id` only: no `limit` key, although a limit was supplied. -/
theorem C16_counterexample :
    ((chatAPI.getHistory (some "s1") (some 0)).exec initialWorld).requests
      = [⟨"GET", "/chat/history", [("session_id", .str "s1")]⟩] ∧
    ((chatAPI.getHistory (some "s1") (some 0)).exec initialWorld).requests
      = ((chatAPI.getHistory (some "s1") none).exec initialWorld).requests ∧
    ((chatAPI.getHistory (some "s1") (some 0)).exec initialWorld).requests
      ≠ [⟨"GET", "/chat/history", [("session_id", .str "s1"), ("limit", .num 0)]⟩] := by
  refine ⟨by decide, by decide, by decide⟩

theorem getHistory_query (sessionId : Option String) (limit : Option Int) (w : World) :
    (∃ params : List (String × Value),
      ((chatAPI.getHistory sessionId limit).exec w).requests
        = w.requests ++ [⟨"GET", "/chat/history", params⟩] ∧
      (∀ n, limit = some n → n ≠ 0 →
        params = [("session_id", .str (sessionIdOrDefault sessionId)), ("limit", .num n)]) ∧
      (params = [("session_id", .str (sessionIdOrDefault sessionId))]
        ↔ limit = none ∨ limit = some 0)) ∧
    (chatAPI.getHistory sessionId limit).completion w = .ok () := by
  refine ⟨?_, rfl⟩
  cases limit with
  | none =>
    exact ⟨[("session_id", .str (sessionIdOrDefault sessionId))], rfl, by simp, by simp⟩
  | some n =>
    by_cases hn : n = 0
    · subst hn
      exact ⟨[("session_id", .str (sessionIdOrDefault sessionId))], rfl, by simp, by simp⟩
    · refine ⟨[("session_id", .str (sessionIdOrDefault sessionId)), ("limit", .num n)],
        ?_, by simp, by simp [hn]⟩
      simp [chatAPI.getHistory, hn, JS.exec, axiosRequest, modifyWorld]

/-- C16 (as amended): for every session id and every limit, `chatAPI.getHistory` issues
one `GET /chat/history`; its query is `session_id` and `limit` with the supplied limit
whenever a limit other than `0` is supplied, and `session_id` only (no `limit` key)
exactly when the limit is omitted or is `0`. The session id is the one supplied, or
`default` when none is. -/
theorem C16_history_query (sessionId : Option String) (limit : Option Int) (w : World) :
    (∃ params : List (String × Value),
      ((chatAPI.getHistory sessionId limit).exec w).requests
        = w.requests ++ [⟨"GET", "/chat/history", params⟩] ∧
      (∀ n, limit = some n → n ≠ 0 →
        params = [("session_id", .str (sessionIdOrDefault sessionId)), ("limit", .num n)]) ∧
      (params = [("session_id", .str (sessionIdOrDefault sessionId))]
        ↔ limit = none ∨ limit = some 0)) ∧
    (chatAPI.getHistory sessionId limit).completion w = .ok () :=
  getHistory_query sessionId limit w

/-- C19 (counterexample): a `chat_response` that is not a success and carries the
empty string as its error appends nothing. -/
theorem C19_counterexample :
    (⟨false, none, some ""⟩ : ChatResponse).hasPayload = false ∧
    (⟨false, none, some ""⟩ : ChatResponse).error = some "" ∧
    ((onMessage ⟨false, none, some ""⟩ "t2").exec twoMessageWorld).messages
      = twoMessageWorld.messages ∧
    ((onMessage ⟨false, none, some ""⟩ "t2").exec twoMessageWorld).messages
      ≠ twoMessageWorld.messages ++ [⟨"assistant", "Error: " ++ "", "t2", "error"⟩] := by
  refine ⟨by decide, by decide, by decide, by decide⟩

/-- C19 (as amended): for every inbound `chat_response` that is not a success with a
payload: when it carries an error string other than the empty string, exactly one
assistant message of type `error` whose content is `Error: ` followed by that string is
appended; when it carries no error, or the empty string, nothing is appended; in every
case the callback completes normally and `isTyping` is false afterwards. -/
theorem C19_error_response (w : World) (data : ChatResponse) (now : String)
    (h : data.hasPayload = false) :
    (∀ e, data.error = some e → e ≠ "" →
      ((onMessage data now).exec w).messages
        = w.messages ++ [⟨"assistant", "Error: " ++ e, now, "error"⟩]) ∧
    (data.error = none ∨ data.error = some "" →
      ((onMessage data now).exec w).messages = w.messages) ∧
    ((onMessage data now).exec w).isTyping = false ∧
    (onMessage data now).completion w = .ok () := by
  obtain ⟨_, _, hty, _⟩ := onMessage_added w data now
  obtain ⟨added, hw⟩ := onMessage_world w data now
  refine ⟨?_, ?_, hty, by rw [JS.completion, hw]⟩
  · intro e he hne
    rw [JS.exec, onMessage_error w now data e h he ((truthy_eq_true_iff e).mpr hne)]
  · intro hn
    have hf : truthyOpt data.error = false := by
      rcases hn with hn | hn <;> simp [hn, truthyOpt, truthy]
    rw [JS.exec, onMessage_neither w now data h hf]

/-- C19 (witness): an error `model not found` on a widget holding two messages. -/
theorem C19_error_response_witness :
    (⟨false, none, some "model not found"⟩ : ChatResponse).hasPayload = false ∧
    ((onMessage ⟨false, none, some "model not found"⟩ "t2").exec twoMessageWorld).messages
      = twoMessageWorld.messages ++
          [⟨"assistant", "Error: " ++ "model not found", "t2", "error"⟩] ∧
    ((onMessage ⟨false, none, none⟩ "t2").exec twoMessageWorld).messages
      = twoMessageWorld.messages :=
  ⟨by decide,
    (C19_error_response twoMessageWorld ⟨false, none, some "model not found"⟩ "t2"
      (by decide)).1 "model not found" rfl (by decide),
    (C19_error_response twoMessageWorld ⟨false, none, none⟩ "t2" (by decide)).2.1
      (Or.inl rfl)⟩

/-- C20: for every input text that is non-empty after trimming, sent while the socket
is absent or not connected, when the fallback request resolves with a body whose
`success` is false or whose `response` is missing, both parts of `handleSendMessage`
complete normally, the store is the store before the send followed by the user message
only (it has grown by exactly 1), and `isTyping` and `isLoading` are false. -/
theorem C20_fallback_without_payload (w : World) (now now2 : String) (data : ChatResponse)
    (h : trim w.inputMessage ≠ "") (hc : socketConnected w = false)
    (hd : data.success = false ∨ data.response = none) :
    (handleSendMessage now).completion w = .ok () ∧
    (handleSendMessage_resume (.ok ⟨data⟩) now2).completion
        ((handleSendMessage now).exec w) = .ok () ∧
    ((handleSendMessage_resume (.ok ⟨data⟩) now2).exec
        ((handleSendMessage now).exec w)).messages
      = w.messages ++ [⟨"user", w.inputMessage, now, "text"⟩] ∧
    ((handleSendMessage_resume (.ok ⟨data⟩) now2).exec
        ((handleSendMessage now).exec w)).messages.length = w.messages.length + 1 ∧
    ((handleSendMessage_resume (.ok ⟨data⟩) now2).exec
        ((handleSendMessage now).exec w)).isTyping = false ∧
    ((handleSendMessage_resume (.ok ⟨data⟩) now2).exec
        ((handleSendMessage now).exec w)).isLoading = false := by
  have ht : truthy (trim w.inputMessage) = true := (truthy_eq_true_iff _).mpr h
  have hp : data.hasPayload = false := (hasPayload_eq_false_iff data).mpr hd
  simp [JS.exec, JS.completion, handleSendMessage_fallback w now ht hc,
    handleSendMessage_resume_nopayload _ now2 data hp]

/-- C20 (witness): the disconnected widget with `hello` typed; the request resolves
with `success` false and an error text, and with `success` true and no payload. -/
theorem C20_fallback_without_payload_witness :
    trim disconnectedWorld.inputMessage ≠ "" ∧ socketConnected disconnectedWorld = false ∧
    ((handleSendMessage_resume (.ok ⟨⟨false, none, some "bad request"⟩⟩) "t2").exec
        ((handleSendMessage "t1").exec disconnectedWorld)).messages
      = disconnectedWorld.messages ++ [⟨"user", disconnectedWorld.inputMessage, "t1", "text"⟩] ∧
    ((handleSendMessage_resume (.ok ⟨⟨true, none, none⟩⟩) "t2").exec
        ((handleSendMessage "t1").exec disconnectedWorld)).messages.length
      = disconnectedWorld.messages.length + 1 :=
  ⟨by decide, by decide,
    (C20_fallback_without_payload disconnectedWorld "t1" "t2"
      ⟨false, none, some "bad request"⟩ (by decide) (by decide) (Or.inl rfl)).2.2.1,
    (C20_fallback_without_payload disconnectedWorld "t1" "t2"
      ⟨true, none, none⟩ (by decide) (by decide) (Or.inr rfl)).2.2.2.1⟩


/-- C18: when no session id is supplied, `chatAPI.sendMessage`, `chatAPI.getHistory`,
`chatAPI.clearHistory` and `ChatSocket.connect` all use the literal `default`; and on a
mounted widget, after any sequence of session events, every REST request issued (history
load, send, clear) and every emission (`join`, `chat_message`, `leave`) carries
`session_id = default`. The last part is one such session, with a request or an
emission of each kind. -/
theorem C18_default_session :
    (∀ (message : String) (w : World),
      ((chatAPI.sendMessage message none).exec w).requests
        = w.requests ++ [⟨"POST", "/chat/message",
            [("message", .str message), ("session_id", .str "default")]⟩]) ∧
    (∀ (limit : Option Int) (w : World), ∃ params : List (String × Value),
      ((chatAPI.getHistory none limit).exec w).requests
        = w.requests ++ [⟨"GET", "/chat/history", params⟩] ∧
      params.lookup "session_id" = some (.str "default")) ∧
    (∀ w : World,
      ((chatAPI.clearHistory none).exec w).requests
        = w.requests ++ [⟨"POST", "/chat/clear", [("session_id", .str "default")]⟩]) ∧
    (∀ base : ChatSocket, (base.connect none).sessionId = "default") ∧
    (∀ es : List SessionEvent,
      (∀ r ∈ (runSession es (mountEffect.exec initialWorld)).requests,
        r.sessionId = some (.str "default")) ∧
      (∀ x ∈ (runSession es (mountEffect.exec initialWorld)).emitted,
        x.sessionId = some (.str "default"))) ∧
    (runSession
        [.widget (.input "a"), .widget (.send "t1"), .transport .connect,
         .widget (.input "b"), .widget (.send "t2"), .clear true, .unmount]
        (mountEffect.exec initialWorld)).requests
      = [⟨"GET", "/chat/history", [("session_id", .str "default"), ("limit", .num 10)]⟩,
         ⟨"POST", "/chat/message", [("message", .str "a"), ("session_id", .str "default")]⟩,
         ⟨"POST", "/chat/clear", [("session_id", .str "default")]⟩] ∧
    (runSession
        [.widget (.input "a"), .widget (.send "t1"), .transport .connect,
         .widget (.input "b"), .widget (.send "t2"), .clear true, .unmount]
        (mountEffect.exec initialWorld)).emitted
      = [⟨"join", [("session_id", .str "default")]⟩,
         ⟨"chat_message", [("message", .str "b"), ("session_id", .str "default")]⟩,
         ⟨"leave", [("session_id", .str "default")]⟩] := by
  refine ⟨fun _ _ => rfl, ?_, fun _ => rfl, fun _ => rfl, ?_, by decide, by decide⟩
  · intro limit w
    obtain ⟨⟨params, hreq, hsome, hnone⟩, _⟩ := getHistory_query none limit w
    refine ⟨params, hreq, ?_⟩
    cases limit with
    | none => rw [hnone.mpr (Or.inl rfl)]; rfl
    | some n =>
      by_cases hn : n = 0
      · subst hn
        rw [hnone.mpr (Or.inr rfl)]; rfl
      · rw [hsome n rfl hn]; rfl
  · intro es
    apply runSession_default
    · intro cs hcs
      have hm : (mountEffect.exec initialWorld).chatSocketRef
          = some (ChatSocket.new.connect none).onMessage := rfl
      rw [hm] at hcs
      rw [← Option.some.inj hcs]
      rfl
    · decide
    · decide


/-- C21: when the history request resolves with `success` false, both parts of
`loadHistory` complete normally and the continuation changes nothing at all: the message
store is exactly as it was, neither emptied nor replaced by the records of the
response. -/
theorem C21_load_unsuccessful_keeps_store (w : World)
    (response : AxiosResponse HistoryResponse) (h : response.data.success = false) :
    loadHistory.completion w = .ok () ∧
    (loadHistory_resume (.ok response)).completion (loadHistory.exec w) = .ok () ∧
    loadHistory_resume (.ok response) w = (.ok (), w) ∧
    ((loadHistory_resume (.ok response)).exec w).messages = w.messages ∧
    ((loadHistory_resume (.ok response)).exec (loadHistory.exec w)).messages
      = w.messages := by
  obtain ⟨⟨s, hist⟩⟩ := response
  simp only at h
  subst h
  exact ⟨rfl, rfl, rfl, rfl, rfl⟩

/-- C21 (witness): a store holding two messages, and a response with `success` false
that still carries one record: the two messages stay. -/
theorem C21_load_unsuccessful_keeps_store_witness :
    (⟨⟨false, [⟨"user", "a", "t1"⟩]⟩⟩ : AxiosResponse HistoryResponse).data.success
      = false ∧
    ((loadHistory_resume (.ok ⟨⟨false, [⟨"user", "a", "t1"⟩]⟩⟩)).exec
      (loadHistory.exec twoMessageWorld)).messages = twoMessageWorld.messages ∧
    twoMessageWorld.messages.length = 2 :=
  ⟨rfl,
    (C21_load_unsuccessful_keeps_store twoMessageWorld
      ⟨⟨false, [⟨"user", "a", "t1"⟩]⟩⟩ rfl).2.2.2.2,
    by decide⟩

/-- A session event that is not a response keeps a typing indicator that is on. -/
theorem session_keeps_typing (e : SessionEvent) (w : World)
    (hty : w.isTyping = true) (he : e.isResponse = false) :
    (e.handler.exec w).isTyping = true := by
  cases e with
  | widget e =>
    cases e with
    | input value => exact hty
    | send now =>
      cases ht : truthy (trim w.inputMessage) with
      | false =>
        simp only [SessionEvent.handler, WidgetEvent.handler]
        rw [JS.exec, handleSendMessage_blank w now ht]
        exact hty
      | true => exact (send_accepted_store w now ht).2.2
    | chatResponse data now => simp [SessionEvent.isResponse, WidgetEvent.isResponse] at he
    | fallbackResolved response now =>
      simp [SessionEvent.isResponse, WidgetEvent.isResponse] at he
    | fallbackRejected error now =>
      simp [SessionEvent.isResponse, WidgetEvent.isResponse] at he
  | transport ev =>
    cases hr : w.chatSocketRef with
    | none =>
      simp only [SessionEvent.handler]
      rw [JS.exec, transportEvent_none ev w hr]
      exact hty
    | some cs =>
      obtain ⟨msgs, ty, cons, hd, hm⟩ := dispatch_world (cs.afterEvent ev) ev
        { w with chatSocketRef := some (cs.afterEvent ev) }
      have hname : ev.name ≠ "chat_response" := by
        cases ev with
        | connect => decide
        | disconnect => decide
        | error e => simp [TransportEvent.name]
        | chatResponse data now => simp [SessionEvent.isResponse] at he
      simp only [SessionEvent.handler]
      rw [JS.exec, transportEvent_some ev w cs hr, hd]
      exact (hm hname).2.trans hty
  | clear confirmed => cases confirmed <;> exact hty
  | clearSettled settled now => cases settled <;> exact hty
  | historySettled settled =>
    cases settled with
    | error e => exact hty
    | ok response =>
      obtain ⟨⟨s, hist⟩⟩ := response
      cases s <;> exact hty
  | unmount =>
    cases hr : w.chatSocketRef with
    | none =>
      have hu : unmountEffect w = (.ok (), w) := by
        simp [unmountEffect, hr, bind, JS.bind, getWorld, pure, JS.pure]
      simp only [SessionEvent.handler]
      rw [JS.exec, hu]
      exact hty
    | some cs =>
      simp only [SessionEvent.handler, unmountEffect_some w cs hr]
      cases hs : cs.socket with
      | none => rw [disconnect_none cs w hs]; exact hty
      | some s => rw [disconnect_some cs s w hs]; exact hty

/-- Over session events none of which is a response, a typing indicator that is on
stays on. -/
theorem runSession_keeps_typing (es : List SessionEvent) (w : World)
    (hty : w.isTyping = true) (hes : ∀ e ∈ es, e.isResponse = false) :
    (runSession es w).isTyping = true := by
  induction es generalizing w with
  | nil => exact hty
  | cons e rest ih =>
    have hrun : runSession (e :: rest) w = runSession rest (e.handler.exec w) := rfl
    rw [hrun]
    exact ih _ (session_keeps_typing e w hty (hes e (List.mem_cons_self _ _)))
      (fun x hx => hes x (List.mem_cons_of_mem _ hx))

/-- C1 (counterexample): with the socket connected and `hello` typed, the send appends
the user message and sets `isTyping`. First, the `chat_response` with `success` false
and neither payload nor error then appends nothing, so no further message follows the
response. Second, when `again` is typed and sent before the first answer arrives, that
answer clears `isTyping` although the second send (two `chat_message` emissions, one
assistant message in the store) has no response yet: `isTyping` is false between the
second send and its response. -/
theorem C1_counterexample :
    trim connectedWorld.inputMessage ≠ "" ∧
    socketConnected connectedWorld = true ∧
    ((handleSendMessage "t1").exec connectedWorld).messages
      = connectedWorld.messages ++ [⟨"user", "hello", "t1", "text"⟩] ∧
    ((onMessage ⟨false, none, none⟩ "t2").exec
        ((handleSendMessage "t1").exec connectedWorld)).messages
      = ((handleSendMessage "t1").exec connectedWorld).messages ∧
    ((onMessage ⟨false, none, none⟩ "t2").exec
        ((handleSendMessage "t1").exec connectedWorld)).isTyping = false ∧
    (¬ ∃ m : Message,
      ((onMessage ⟨false, none, none⟩ "t2").exec
          ((handleSendMessage "t1").exec connectedWorld)).messages
        = ((handleSendMessage "t1").exec connectedWorld).messages ++ [m]) ∧
    (runEvents [.send "t1", .input "again", .send "t2"] connectedWorld).isTyping = true ∧
    (runEvents [.send "t1", .input "again", .send "t2"] connectedWorld).emitted
      = [⟨"chat_message", [("message", .str "hello"), ("session_id", .str "default")]⟩,
         ⟨"chat_message", [("message", .str "again"), ("session_id", .str "default")]⟩] ∧
    (runEvents
        [.send "t1", .input "again", .send "t2",
         .chatResponse ⟨true, some ⟨"first answer", none⟩, none⟩ "t3"]
        connectedWorld).messages
      = [⟨"user", "hello", "t1", "text"⟩, ⟨"user", "again", "t2", "text"⟩,
         ⟨"assistant", "first answer", "t3", "text"⟩] ∧
    (runEvents
        [.send "t1", .input "again", .send "t2",
         .chatResponse ⟨true, some ⟨"first answer", none⟩, none⟩ "t3"]
        connectedWorld).isTyping = false := by
  have h4 : ((onMessage ⟨false, none, none⟩ "t2").exec
        ((handleSendMessage "t1").exec connectedWorld)).messages
      = ((handleSendMessage "t1").exec connectedWorld).messages := by decide
  refine ⟨by decide, by decide, by decide, h4, by decide, ?_, by decide, by decide,
    by decide, by decide⟩
  rintro ⟨m, hm⟩
  rw [h4] at hm
  have hlen := congrArg List.length hm
  simp at hlen

/-- C1 (as amended): for every input text that is non-empty after trimming,
`handleSendMessage` completes normally, appends exactly one user message carrying that
text, and sets `isTyping`; `isTyping` then stays true over any further session events (typing,
sends, transport `connect`, `disconnect` and `error` events, clearing, the history
settling, unmounting) until the next response is handled (a `chat_response` on the
socket, or the settled REST fallback, whether it answers this send or another one). Handling that
response clears `isTyping` and appends exactly one assistant message when the response
is a success with a payload, a `chat_response` with a non-empty error, or a rejected
fallback request, and appends nothing otherwise. -/
theorem C1_send_then_response (w : World) (now now2 : String) (es : List SessionEvent)
    (h : trim w.inputMessage ≠ "") (hes : ∀ e ∈ es, e.isResponse = false) :
    (handleSendMessage now).completion w = .ok () ∧
    ((handleSendMessage now).exec w).messages
      = w.messages ++ [⟨"user", w.inputMessage, now, "text"⟩] ∧
    ((handleSendMessage now).exec w).isTyping = true ∧
    (runSession es ((handleSendMessage now).exec w)).isTyping = true ∧
    (∀ data : ChatResponse, ∃ added : List Message,
      ((onMessage data now2).exec (runSession es ((handleSendMessage now).exec w))).messages
        = (runSession es ((handleSendMessage now).exec w)).messages ++ added ∧
      (∀ m ∈ added, m.role = "assistant") ∧
      (added.length = if data.hasPayload || truthyOpt data.error then 1 else 0) ∧
      ((onMessage data now2).exec
        (runSession es ((handleSendMessage now).exec w))).isTyping = false) ∧
    (∀ settled : Except JSError (AxiosResponse ChatResponse), ∃ added : List Message,
      ((handleSendMessage_resume settled now2).exec
          (runSession es ((handleSendMessage now).exec w))).messages
        = (runSession es ((handleSendMessage now).exec w)).messages ++ added ∧
      (∀ m ∈ added, m.role = "assistant") ∧
      (added.length =
        match settled with
        | .ok response => if response.data.hasPayload then 1 else 0
        | .error _ => 1) ∧
      ((handleSendMessage_resume settled now2).exec
        (runSession es ((handleSendMessage now).exec w))).isTyping = false) := by
  have ht : truthy (trim w.inputMessage) = true := (truthy_eq_true_iff _).mpr h
  obtain ⟨h1, h2, h3⟩ := send_accepted_store w now ht
  refine ⟨h1, h2, h3, runSession_keeps_typing es _ h3 hes, ?_, ?_⟩
  · intro data
    obtain ⟨added, hm, hty, hr, hl⟩ :=
      onMessage_added (runSession es ((handleSendMessage now).exec w)) data now2
    exact ⟨added, hm, hr, hl, hty⟩
  · intro settled
    obtain ⟨added, hm, hty, hr, hl⟩ :=
      resume_added (runSession es ((handleSendMessage now).exec w)) settled now2
    exact ⟨added, hm, hr, hl, hty⟩

/-- C1 (witness): the amended statement at the connected widget with `hello` typed,
followed by typing `again`, a second send, a transport error and a confirmed clear:
`isTyping` is true after the send and still true after the four further events. -/
theorem C1_send_then_response_witness :
    trim connectedWorld.inputMessage ≠ "" ∧
    (∀ e ∈ [SessionEvent.widget (.input "again"), .widget (.send "t2"),
        .transport (.error "timeout"), .clear true],
      e.isResponse = false) ∧
    ((handleSendMessage "t1").exec connectedWorld).messages
      = connectedWorld.messages ++ [⟨"user", connectedWorld.inputMessage, "t1", "text"⟩] ∧
    ((handleSendMessage "t1").exec connectedWorld).isTyping = true ∧
    (runSession [SessionEvent.widget (.input "again"), .widget (.send "t2"),
        .transport (.error "timeout"), .clear true]
      ((handleSendMessage "t1").exec connectedWorld)).isTyping = true :=
  ⟨by decide, by decide,
    (C1_send_then_response connectedWorld "t1" "t3"
      [.widget (.input "again"), .widget (.send "t2"), .transport (.error "timeout"),
        .clear true]
      (by decide) (by decide)).2.1,
    (C1_send_then_response connectedWorld "t1" "t3"
      [.widget (.input "again"), .widget (.send "t2"), .transport (.error "timeout"),
        .clear true]
      (by decide) (by decide)).2.2.1,
    (C1_send_then_response connectedWorld "t1" "t3"
      [.widget (.input "again"), .widget (.send "t2"), .transport (.error "timeout"),
        .clear true]
      (by decide) (by decide)).2.2.2.1⟩

end ChatWidget
